import Mathlib

/-!
# graphlint — shallow embedding and verification

A shallow embedding of the graphlint schema-to-IR compiler
(`graphlint/parser.py`, `graphlint/shacl_parser.py`), the two query
backends (`graphlint/backends/cypher.py`, `graphlint/backends/gql.py`)
and the plan runner (`graphlint/runner.py`), together with proofs about
the testable properties of the system.

Modelling conventions:
* Python `Optional[T]` fields become `Option T`.
* Python `int` becomes `Int` (counts that are necessarily non-negative
  stay `Int` to match the source's arithmetic).
* Python string formatting is reproduced by explicit concatenation.
* Python exceptions raised by `compile_check` (`NotImplementedError`)
  become `Except String` results.
* The external database session (an out-of-scope collaborator per the
  design) is modelled as a record of response functions.
* IEEE floats only ever flow through the IR unchanged (numeric range
  bounds); they are modelled as exact rationals, no claim depends on
  float rounding.
-/

namespace Graphlint

/-- `Severity(str, Enum)` from `graphlint/parser.py`. -/
inductive Severity where
  | VIOLATION
  | WARNING
  | INFO
deriving DecidableEq, Repr

/-- The `.value` string of each `Severity` member. -/
def Severity.value : Severity → String
  | .VIOLATION => "violation"
  | .WARNING => "warning"
  | .INFO => "info"

/-- `CheckType(str, Enum)`.  The ten members up to `EMPTY_SHAPE` are
declared in `graphlint/parser.py`; the remaining members are referenced
throughout `graphlint/shacl_parser.py`, `graphlint/backends/gql.py` and
`graphlint/runner.py` (their declaration site is not part of the
source snapshot, so they are modelled from those call sites and the
spec's closed set of check-kind tags). -/
inductive CheckType where
  | PROPERTY_EXISTS
  | PROPERTY_TYPE
  | PROPERTY_VALUE_IN
  | RELATIONSHIP_CARDINALITY
  | RELATIONSHIP_ENDPOINT
  | CLOSED_SHAPE
  | UNDECLARED_LABELS
  | UNDECLARED_RELATIONSHIP_TYPES
  | UNDECLARED_PROPERTIES
  | EMPTY_SHAPE
  | PROPERTY_PATTERN
  | PROPERTY_STRING_LENGTH
  | PROPERTY_RANGE
  | PROPERTY_PAIR
  | QUALIFIED_CARDINALITY
  | LOGICAL_NOT
  | LOGICAL_AND
  | LOGICAL_OR
  | LOGICAL_XONE
  | UNIQUE_LANG
deriving DecidableEq, Repr

/-- The `.value` string of each `CheckType` member. -/
def CheckType.value : CheckType → String
  | .PROPERTY_EXISTS => "property_exists"
  | .PROPERTY_TYPE => "property_type"
  | .PROPERTY_VALUE_IN => "property_value_in"
  | .RELATIONSHIP_CARDINALITY => "relationship_cardinality"
  | .RELATIONSHIP_ENDPOINT => "relationship_endpoint"
  | .CLOSED_SHAPE => "closed_shape"
  | .UNDECLARED_LABELS => "undeclared_labels"
  | .UNDECLARED_RELATIONSHIP_TYPES => "undeclared_relationship_types"
  | .UNDECLARED_PROPERTIES => "undeclared_properties"
  | .EMPTY_SHAPE => "empty_shape"
  | .PROPERTY_PATTERN => "property_pattern"
  | .PROPERTY_STRING_LENGTH => "property_string_length"
  | .PROPERTY_RANGE => "property_range"
  | .PROPERTY_PAIR => "property_pair"
  | .QUALIFIED_CARDINALITY => "qualified_cardinality"
  | .LOGICAL_NOT => "logical_not"
  | .LOGICAL_AND => "logical_and"
  | .LOGICAL_OR => "logical_or"
  | .LOGICAL_XONE => "logical_xone"
  | .UNIQUE_LANG => "unique_lang"

/-- A scalar value carried in a check payload (allowed values, default
values).  Mirrors the Python `str` / `bool` / `int` values produced by
`_extract_value_set` / `_extract_rdf_list`; float coercion is not
modelled (no verified property depends on it). -/
inductive LpgValue where
  | str (s : String)
  | bool (b : Bool)
  | int (n : Int)
deriving DecidableEq, Repr

/-- `RelationshipTarget` dataclass from `graphlint/parser.py`. -/
structure RelationshipTarget where
  type : String
  direction : String
  target_label : String
deriving DecidableEq, Repr

/-- The four comparison kinds written into `comparison_type` by
`shacl_parser._property_checks` (sh:equals / sh:disjoint / sh:lessThan /
sh:lessThanOrEquals). -/
inductive CompType where
  | equals
  | disjoint
  | lessThan
  | lessThanOrEquals
deriving DecidableEq, Repr

def CompType.value : CompType → String
  | .equals => "equals"
  | .disjoint => "disjoint"
  | .lessThan => "lessThan"
  | .lessThanOrEquals => "lessThanOrEquals"

/-- The fields of the `Check` dataclass (`graphlint/parser.py`), with
the extra payload fields written by `graphlint/shacl_parser.py`
(`pattern`, length/range bounds, pair comparison, qualified cardinality,
`sub_checks`, `acceptable_labels`, annotations), which the source
snapshot's dataclass declaration omits but all downstream code reads.
Parameterised over the recursive occurrence (`qualified_filter`,
`sub_checks` hold nested Checks). -/
structure CheckData (C : Type) where
  id : String
  type : CheckType
  shape : Option String
  target_label : String
  severity : Severity
  message : String
  property : Option String := none
  expected_type : Option String := none
  allowed_values : Option (List LpgValue) := none
  only_if_exists : Bool := false
  relationship : Option RelationshipTarget := none
  min_count : Option Int := none
  max_count : Option Int := none
  allowed_properties : Option (List String) := none
  allowed_relationships : Option (List String) := none
  pattern : Option String := none
  pattern_flags : Option String := none
  min_length : Option Int := none
  max_length : Option Int := none
  min_inclusive : Option Rat := none
  max_inclusive : Option Rat := none
  min_exclusive : Option Rat := none
  max_exclusive : Option Rat := none
  compare_property : Option String := none
  comparison_type : Option CompType := none
  qualified_filter : Option C := none
  qualified_min : Option Int := none
  qualified_max : Option Int := none
  sub_checks : List C := []
  acceptable_labels : Option (List String) := none
  default_value : Option LpgValue := none
  display_order : Option Int := none

/-- The `Check` dataclass: a `CheckData` whose nested checks are again
`Check`s. -/
inductive Check where
  | mk (data : CheckData Check) : Check

/-- Field projection for `Check`. -/
def Check.data : Check → CheckData Check
  | .mk d => d

@[simp] theorem Check.data_mk (d : CheckData Check) : (Check.mk d).data = d := rfl

/-! ## Python string primitives

The embedding models the Python `str` operations the source uses as
explicit functions over the character list (`String.toList`), keeping
every definition computable by the kernel.  ASCII behaviour is modelled
(the source data is ASCII identifiers and query syntax). -/

/-- Python `str.lower()`. -/
def pyLower (s : String) : String := ⟨s.toList.map Char.toLower⟩

/-- Python `str.upper()`. -/
def pyUpper (s : String) : String := ⟨s.toList.map Char.toUpper⟩

/-- Python `str.strip()`: drop leading and trailing whitespace. -/
def pyStrip (s : String) : String :=
  ⟨((s.toList.dropWhile Char.isWhitespace).reverse.dropWhile
      Char.isWhitespace).reverse⟩

/-- Python `str.startswith(pre)`. -/
def pyStartswith (s pre : String) : Bool :=
  pre.toList.isPrefixOf s.toList

/-- Python `str.replace(old, new)` for a single-character `old` (the
only form the source uses, escaping single quotes). -/
def pyReplaceChar (s : String) (c : Char) (new : String) : String :=
  ⟨s.toList.flatMap fun ch => if ch = c then new.toList else [ch]⟩

/-- Python `c in s` for a single character. -/
def pyContainsChar (s : String) (c : Char) : Bool :=
  s.toList.contains c

/-- The digit-accumulation loop of `pyInt?`. -/
def pyDigits? (cs : List Char) : Option Nat :=
  if cs.isEmpty then none
  else
    cs.foldl
      (fun acc c =>
        acc.bind fun n =>
          if c.isDigit then some (n * 10 + (c.toNat - '0'.toNat)) else none)
      (some 0)

/-- Python `int(s)` on a decimal string: optional sign then digits;
`none` models the raised `ValueError`. -/
def pyInt? (s : String) : Option Int :=
  match s.toList with
  | '-' :: rest => (pyDigits? rest).map fun n => -(n : Int)
  | '+' :: rest => (pyDigits? rest).map fun n => (n : Int)
  | cs => (pyDigits? cs).map fun n => (n : Int)

/-- Code-point lexicographic `a <= b` on strings (Python string
comparison). -/
def pyStrLeGo : List Char → List Char → Bool
  | [], _ => true
  | _ :: _, [] => false
  | a :: as, b :: bs =>
    if a.toNat < b.toNat then true
    else if b.toNat < a.toNat then false
    else pyStrLeGo as bs

def pyStrLe (a b : String) : Bool := pyStrLeGo a.toList b.toList

/-- Stable insertion into an ascending list. -/
def insertSorted (x : String) : List String → List String
  | [] => [x]
  | y :: ys => if pyStrLe x y then x :: y :: ys else y :: insertSorted x ys

/-- Python `sorted(list_of_strings)`. -/
def pySorted (l : List String) : List String := l.foldr insertSorted []

/-- Drop adjacent duplicates in a sorted list. -/
def dedupAdj : List String → List String
  | [] => []
  | [x] => [x]
  | x :: y :: r => if x == y then dedupAdj (y :: r) else x :: dedupAdj (y :: r)

/-- The substring after the last occurrence of `c` (the whole string if
`c` is absent): Python `s.rsplit(c, 1)[-1]`. -/
def afterLastChar (c : Char) (s : String) : String :=
  ⟨(s.toList.reverse.takeWhile fun ch => ch ≠ c).reverse⟩

/-! ## Mapping (`graphlint/parser.py`) -/

/-- Dictionary lookup on an association list (Python `dict` access
where only key membership and lookup are used). -/
def dictGet (m : List (String × String)) (k : String) : Option String :=
  (m.find? (fun p => p.1 == k)).map (fun p => p.2)

/-- `Mapping` dataclass: three override tables, convention defaults. -/
structure Mapping where
  classes_to_labels : List (String × String) := []
  predicates_to_relationships : List (String × String) := []
  predicates_to_properties : List (String × String) := []

/-- `Mapping._local_name`: the fragment after `#`, else after the last
`/`, else the raw identifier. -/
def Mapping.localName (iri : String) : String :=
  if pyContainsChar iri '#' then afterLastChar '#' iri
  else afterLastChar '/' iri

/-- Character-by-character body of `Mapping._to_upper_snake`. -/
def upperSnakeGo : List Char → Nat → List Char
  | [], _ => []
  | c :: rest, i =>
    (if c.isUpper && i > 0 then ['_', c.toUpper] else [c.toUpper])
      ++ upperSnakeGo rest (i + 1)

/-- `Mapping._to_upper_snake`: camelCase → UPPER_SNAKE_CASE. -/
def Mapping.toUpperSnake (name : String) : String :=
  ⟨upperSnakeGo name.toList 0⟩

/-- `Mapping.label_for`. -/
def Mapping.label_for (m : Mapping) (iri : String) : String :=
  match dictGet m.classes_to_labels iri with
  | some v => v
  | none => Mapping.localName iri

/-- `Mapping.property_for`. -/
def Mapping.property_for (m : Mapping) (iri : String) : String :=
  match dictGet m.predicates_to_properties iri with
  | some v => v
  | none => Mapping.localName iri

/-- `Mapping.relationship_for`. -/
def Mapping.relationship_for (m : Mapping) (iri : String) : String :=
  match dictGet m.predicates_to_relationships iri with
  | some v => v
  | none => Mapping.toUpperSnake (Mapping.localName iri)

/-! ## XSD type table (`graphlint/parser.py`) -/

def XSD : String := "http://www.w3.org/2001/XMLSchema#"

/-- `XSD_TO_LPG_TYPE`. -/
def XSD_TO_LPG_TYPE : List (String × String) :=
  [ (XSD ++ "string", "string")
  , (XSD ++ "integer", "integer")
  , (XSD ++ "int", "integer")
  , (XSD ++ "long", "integer")
  , (XSD ++ "float", "float")
  , (XSD ++ "double", "float")
  , (XSD ++ "decimal", "float")
  , (XSD ++ "boolean", "boolean")
  , (XSD ++ "date", "date")
  , (XSD ++ "dateTime", "datetime") ]

/-! ## ValidationPlan (`graphlint/parser.py`) -/

/-- `ValidationPlan` dataclass. -/
structure ValidationPlan where
  schema_source : String
  checks : List Check
  shapes : List String
  mapping : Mapping

/-! ## ShExC parser (`graphlint/parser.py`)

`parse_shexc_to_plan` first runs the external `pyshexc` library and
loads the resulting ShExJ JSON document; the embedding starts from that
document, modelled by the structures below (field access mirrors the
`dict.get` calls of the source). -/

/-- An item of a ShExJ value set: either an object `{value, type}` or a
bare value (`_extract_value_set` branches on `isinstance(v, dict)`). -/
inductive ShexValueItem where
  | objItem (value : String) (vtype : String)
  | plain (s : String)
deriving DecidableEq, Repr

/-- A ShExJ `valueExpr`: a bare string IRI (shape reference) or a JSON
object carrying `type`, `id`, `datatype`, `values`. -/
inductive ShexValueExpr where
  | strRef (iri : String)
  | obj (type_ : String) (id : String) (datatype : Option String)
      (values : Option (List ShexValueItem))
deriving DecidableEq, Repr

/-- A ShExJ `TripleConstraint` object; absent JSON keys are `none`
(`min`/`max` default to 1 at the access site, as in the source). -/
structure TripleConstraint where
  predicate : String := ""
  valueExpr : Option ShexValueExpr := none
  min : Option Int := none
  max : Option Int := none
deriving Repr

/-- A ShExJ shape expression as walked by `_process_expression`. -/
inductive ShexExpression where
  | eachOf (expressions : List ShexExpression)
  | tripleConstraint (tc : TripleConstraint)
  | otherExpr (type_ : String)

/-- A ShExJ shape: `id` plus optional `expression`. -/
structure ShexShape where
  id : String := ""
  expression : Option ShexExpression := none

/-- The ShExJ document produced by `pyshexc` for a schema text. -/
structure ShexSchema where
  shapes : List ShexShape := []

/-- Python truthiness of an optional string (`None` and `""` are falsy). -/
def strOptTruthy (o : Option String) : Bool :=
  o.getD "" != ""

/-- Python truthiness of an optional list (`None` and `[]` are falsy). -/
def listOptTruthy {α : Type} (o : Option (List α)) : Bool :=
  !(o.getD []).isEmpty

/-- Substring containment test used for Python's `"x" in s`. -/
def containsSub (hay needle : String) : Prop :=
  needle.toList <:+: hay.toList

instance (hay needle : String) : Decidable (containsSub hay needle) :=
  List.decidableInfix needle.toList hay.toList

/-- Python `repr` of a scalar value (`str` uses single quotes). -/
def LpgValue.pyRepr : LpgValue → String
  | .str s => "\x27" ++ s ++ "\x27"
  | .bool b => if b then "True" else "False"
  | .int n => toString n

/-- Python `str`/`repr` of a list of scalar values. -/
def pyListRepr (l : List LpgValue) : String :=
  "[" ++ String.intercalate ", " (l.map LpgValue.pyRepr) ++ "]"

/-- Python `str`/`repr` of a list of strings. -/
def pyStrListRepr (l : List String) : String :=
  "[" ++ String.intercalate ", " (l.map fun s => "\x27" ++ s ++ "\x27") ++ "]"

/-- `_is_shape_reference`. -/
def isShapeReference : Option ShexValueExpr → Bool
  | some (.strRef _) => true
  | some (.obj t _ _ _) =>
    if t == "NodeConstraint" then false
    else if t == "ShapeRef" || t == "Shape" then true
    else false
  | none => false

/-- `_extract_value_set`: integer-looking typed values are coerced with
`int()`; the float branch of the source is kept as the raw string (no
verified property inspects float payloads). -/
def extractValueSet (values : List ShexValueItem) : List LpgValue :=
  values.map fun v =>
    match v with
    | .objItem value vtype =>
      if vtype != "" &&
          (decide (containsSub vtype "integer") || decide (containsSub vtype "int")) then
        match pyInt? value with
        | some n => .int n
        | none => .str value
      else
        .str value
    | .plain s => .str s

/-- `_rel_cardinality_message`. -/
def relCardinalityMessage (source relType target : String)
    (minC : Int) (maxC : Option Int) : String :=
  if minC == 0 && maxC == some 1 then
    source ++ " may have at most one " ++ relType ++ " relationship to " ++ target
  else if minC == 1 && maxC == some 1 then
    source ++ " must have exactly one " ++ relType ++ " relationship to " ++ target
  else if minC == 1 && maxC == none then
    source ++ " must have at least one " ++ relType ++ " relationship to " ++ target
  else if minC == 0 && maxC == none then
    source ++ " may have zero or more " ++ relType ++ " relationships to " ++ target
  else
    let maxStr := match maxC with | some m => toString m | none => "∞"
    source ++ " must have " ++ toString minC ++ ".." ++ maxStr ++ " "
      ++ relType ++ " relationships to " ++ target

/-- `_process_triple_constraint`. -/
def processTripleConstraint (tc : TripleConstraint) (shapeId : String)
    (label : String) (mapping : Mapping) : List Check :=
  let predicate := tc.predicate
  let valueExpr := tc.valueExpr
  let minCard : Int := tc.min.getD 1
  let maxCard0 : Int := tc.max.getD 1
  let maxCard : Option Int := if maxCard0 == -1 then none else some maxCard0
  let isOptional := minCard == 0
  let isRelationship := isShapeReference valueExpr
  if isRelationship then
    let targetShapeIri :=
      match valueExpr with
      | some (.strRef s) => s
      | some (.obj _ id _ _) => id
      | none => ""
    let targetLabel := mapping.label_for targetShapeIri
    let relType := mapping.relationship_for predicate
    let checkId := pyLower label ++ "-" ++ pyLower relType ++ "-cardinality"
    [Check.mk
      { id := checkId
      , type := .RELATIONSHIP_CARDINALITY
      , shape := some shapeId
      , target_label := label
      , severity := .VIOLATION
      , message := relCardinalityMessage label relType targetLabel minCard maxCard
      , relationship := some ⟨relType, "outgoing", targetLabel⟩
      , min_count := some minCard
      , max_count := maxCard }]
  else
    let propName := mapping.property_for predicate
    let existsChecks : List Check :=
      if !isOptional then
        [Check.mk
          { id := pyLower label ++ "-" ++ propName ++ "-exists"
          , type := .PROPERTY_EXISTS
          , shape := some shapeId
          , target_label := label
          , severity := .VIOLATION
          , message := label ++ " node missing required \x27" ++ propName
              ++ "\x27 property"
          , property := some propName }]
      else []
    let valueChecks : List Check :=
      match valueExpr with
      | some (.obj _ _ datatype values) =>
        let typeChecks : List Check :=
          if strOptTruthy datatype then
            let dt := datatype.getD ""
            let lpgType := (dictGet XSD_TO_LPG_TYPE dt).getD dt
            [Check.mk
              { id := pyLower label ++ "-" ++ propName ++ "-type"
              , type := .PROPERTY_TYPE
              , shape := some shapeId
              , target_label := label
              , severity := .VIOLATION
              , message := label ++ "." ++ propName ++ " must be of type " ++ lpgType
              , property := some propName
              , expected_type := some lpgType
              , only_if_exists := isOptional }]
          else []
        let valueSetChecks : List Check :=
          if listOptTruthy values then
            let allowed := extractValueSet (values.getD [])
            [Check.mk
              { id := pyLower label ++ "-" ++ propName ++ "-values"
              , type := .PROPERTY_VALUE_IN
              , shape := some shapeId
              , target_label := label
              , severity := .VIOLATION
              , message := label ++ "." ++ propName ++ " must be one of: "
                  ++ pyListRepr allowed
              , property := some propName
              , allowed_values := some allowed
              , only_if_exists := isOptional }]
          else []
        typeChecks ++ valueSetChecks
      | _ => []
    existsChecks ++ valueChecks

mutual

/-- `_process_expression`. -/
def processExpression (expr : ShexExpression) (shapeId : String)
    (label : String) (mapping : Mapping) : List Check :=
  match expr with
  | .eachOf exprs => processExpressionList exprs shapeId label mapping
  | .tripleConstraint tc => processTripleConstraint tc shapeId label mapping
  | .otherExpr _ => []

/-- The `for sub_expr in expr.get("expressions", [])` loop of
`_process_expression`. -/
def processExpressionList (exprs : List ShexExpression) (shapeId : String)
    (label : String) (mapping : Mapping) : List Check :=
  match exprs with
  | [] => []
  | e :: rest =>
    processExpression e shapeId label mapping
      ++ processExpressionList rest shapeId label mapping

end

/-! ## Strict-mode check generator (`graphlint/parser.py`) -/

/-- `props_by_label.setdefault(label, [])` followed by the
membership-guarded append in `_generate_strict_checks`. -/
def addPropByLabel (m : List (String × List String)) (label prop : String) :
    List (String × List String) :=
  if m.any (fun p => p.1 == label) then
    m.map fun p =>
      if p.1 == label then
        (p.1, if p.2.contains prop then p.2 else p.2 ++ [prop])
      else p
  else m ++ [(label, [prop])]

/-- The `props_by_label` accumulation loop of `_generate_strict_checks`. -/
def propsByLabel (checks : List Check) : List (String × List String) :=
  checks.foldl
    (fun m c =>
      if strOptTruthy c.data.property && c.data.target_label != "" then
        addPropByLabel m c.data.target_label (c.data.property.getD "")
      else m)
    []

/-- Python `sorted(set_of_strings)`. -/
def sortedDedup (l : List String) : List String :=
  dedupAdj (pySorted l)

/-- `_generate_strict_checks`. -/
def generateStrictChecks (shapeIris : List String)
    (existingChecks : List Check) (mapping : Mapping) : List Check :=
  let declaredLabels := shapeIris.map mapping.label_for
  let declaredRels :=
    sortedDedup (existingChecks.filterMap fun c => c.data.relationship.map (·.type))
  let propsBy := propsByLabel existingChecks
  let undeclaredLabels : List Check :=
    [Check.mk
      { id := "strict-undeclared-labels"
      , type := .UNDECLARED_LABELS
      , shape := none
      , target_label := "*"
      , severity := .WARNING
      , message := "Database contains node labels not declared in schema. Declared: "
          ++ pyStrListRepr declaredLabels
      , allowed_values := some (declaredLabels.map LpgValue.str) }]
  let undeclaredRels : List Check :=
    [Check.mk
      { id := "strict-undeclared-rel-types"
      , type := .UNDECLARED_RELATIONSHIP_TYPES
      , shape := none
      , target_label := "*"
      , severity := .WARNING
      , message := "Database contains relationship types not declared in schema. Declared: "
          ++ pyStrListRepr declaredRels
      , allowed_relationships := some declaredRels }]
  let undeclaredProps : List Check :=
    declaredLabels.map fun label =>
      let props := ((propsBy.find? (fun p => p.1 == label)).map (·.2)).getD []
      Check.mk
        { id := "strict-" ++ pyLower label ++ "-undeclared-props"
        , type := .UNDECLARED_PROPERTIES
        , shape := none
        , target_label := label
        , severity := .WARNING
        , message := label ++ " nodes have properties not declared in schema. Declared: "
            ++ pyStrListRepr props
        , allowed_properties := some props }
  let emptyShapes : List Check :=
    declaredLabels.map fun label =>
      Check.mk
        { id := "strict-" ++ pyLower label ++ "-empty"
        , type := .EMPTY_SHAPE
        , shape := none
        , target_label := label
        , severity := .WARNING
        , message := "Schema declares " ++ label ++ " but no " ++ label
            ++ " nodes exist in the database" }
  undeclaredLabels ++ undeclaredRels ++ undeclaredProps ++ emptyShapes

/-- `parse_shexc_to_plan` (from the parsed ShExJ document onwards; the
text-to-ShExJ step is the external `pyshexc` library). -/
def parse_shexc_to_plan (schema : ShexSchema) (mapping : Option Mapping := none)
    (source : String := "<string>") (strict : Bool := false) : ValidationPlan :=
  let mapping := mapping.getD {}
  let shapeIris := schema.shapes.map (·.id)
  let checks := schema.shapes.flatMap fun shape =>
    match shape.expression with
    | none => []
    | some e => processExpression e shape.id (mapping.label_for shape.id) mapping
  let checks :=
    if strict then checks ++ generateStrictChecks shapeIris checks mapping
    else checks
  { schema_source := source
  , checks := checks
  , shapes := shapeIris
  , mapping := mapping }

/-! ## SHACL parser (`graphlint/shacl_parser.py`)

`parse_shacl_to_plan` first parses Turtle text via the external
`rdflib` library and then reads the graph with `g.value`/`g.objects`
calls.  The embedding starts from a view of the graph in which those
lookups have been performed: each `sh:property` node is a record of the
values `_process_property_shape` reads, each `sh:NodeShape` a record of
its target classes, property nodes, closedness and logical operands,
and the `rdfs:subClassOf` triples a list of (sub, sup) pairs.  RDF-list
extraction (`_extract_rdf_list`) and literal `.toPython()` conversion
happen in that view. -/

def SHNS : String := "http://www.w3.org/ns/shacl#"

/-- Python `str` of a scalar (f-string interpolation). -/
def LpgValue.pyStr : LpgValue → String
  | .str s => s
  | .bool b => if b then "True" else "False"
  | .int n => toString n

/-- The `sh:path` value of a property shape: a plain IRI, a blank node
carrying `sh:inversePath` with an IRI, or an unsupported complex path. -/
inductive ShaclPath where
  | uri (iri : String)
  | inverseOf (iri : String)
  | complex
deriving DecidableEq, Repr

/-- The value of `sh:node`: a referenced node shape together with that
shape's `sh:targetClass` (the `g.value(sh_node, SH.targetClass)`
lookup of `_relationship_checks`). -/
structure ShaclNodeRef where
  iri : String
  targetClass : Option String := none
deriving DecidableEq, Repr

/-- The inner constraints of a `sh:qualifiedValueShape` read by
`_parse_qualified_filter`. -/
structure QvsView where
  datatype : Option String := none
  class_ : Option String := none
  inList : Option (List LpgValue) := none
deriving DecidableEq, Repr

/-- The values `_process_property_shape`/`_property_checks` read from a
`sh:property` node. -/
structure PropertyShape where
  path : Option ShaclPath := none
  minCount : Option Int := none
  maxCount : Option Int := none
  severityIri : Option String := none
  nodeKind : Option String := none
  node : Option ShaclNodeRef := none
  class_ : Option String := none
  datatype : Option String := none
  inList : Option (List LpgValue) := none
  hasValue : Option LpgValue := none
  pattern : Option String := none
  flags : Option String := none
  minLength : Option Int := none
  maxLength : Option Int := none
  minInclusive : Option Rat := none
  maxInclusive : Option Rat := none
  minExclusive : Option Rat := none
  maxExclusive : Option Rat := none
  equals_ : Option String := none
  disjoint : Option String := none
  lessThan : Option String := none
  lessThanOrEquals : Option String := none
  uniqueLang : Option Bool := none
  defaultValue : Option LpgValue := none
  order : Option Int := none
  qualifiedValueShape : Option QvsView := none
  qualifiedMinCount : Option Int := none
  qualifiedMaxCount : Option Int := none

/-- The values `_parse_logical_inner` reads from a property node of an
inner (logical-operand) shape. -/
structure InnerPropShape where
  path : Option ShaclPath := none
  datatype : Option String := none
  minInclusive : Option Rat := none
  maxInclusive : Option Rat := none
  pattern : Option String := none
  hasValue : Option LpgValue := none
  minCount : Option Int := none

/-- An inner shape referenced from `sh:not`/`sh:and`/`sh:or`/`sh:xone`. -/
structure InnerShape where
  properties : List InnerPropShape := []

/-- The values read from a `sh:NodeShape` subject. -/
structure NodeShape where
  iri : String
  targetClasses : List String := []
  properties : List PropertyShape := []
  closed : Option Bool := none
  ignoredProperties : Option (List String) := none
  nots : List InnerShape := []
  andList : Option (List InnerShape) := none
  orList : Option (List InnerShape) := none
  xoneList : Option (List InnerShape) := none

/-- The graph view consumed by the SHACL parser: the `sh:NodeShape`
subjects in iteration order, and the `rdfs:subClassOf` triples as
(subclass, superclass) pairs in iteration order. -/
structure ShaclGraph where
  nodeShapes : List NodeShape := []
  subClassEdges : List (String × String) := []

/-- `_shacl_severity`. -/
def shaclSeverity (sevIri : Option String) : Severity :=
  match sevIri with
  | none => .VIOLATION
  | some s =>
    if s == SHNS ++ "Warning" then .WARNING
    else if s == SHNS ++ "Info" then .INFO
    else .VIOLATION

/-- `children.setdefault(sup_str, []).append(sub_str)`. -/
def appendChild (m : List (String × List String)) (sup sub : String) :
    List (String × List String) :=
  if m.any (fun p => p.1 == sup) then
    m.map fun p => if p.1 == sup then (p.1, p.2 ++ [sub]) else p
  else m ++ [(sup, [sub])]

/-- The direct-subclass table of `_build_class_hierarchy`. -/
def buildChildren (edges : List (String × String)) : List (String × List String) :=
  edges.foldl (fun m e => appendChild m e.2 e.1) []

/-- `children.get(cls, [])`. -/
def childrenOf (children : List (String × List String)) (cls : String) :
    List String :=
  (((children.find? (fun p => p.1 == cls))).map (·.2)).getD []

/-- `_collect_descendants`.  The source recurses with no cycle guard
(documented as an open bug); the embedding carries fuel which is ample
for every acyclic hierarchy (recursion depth is bounded by the number
of subclass edges). -/
def collectDescendants (children : List (String × List String)) :
    Nat → String → List String
  | 0, cls => [cls]
  | fuel + 1, cls =>
    cls :: (childrenOf children cls).flatMap (collectDescendants children fuel)

/-- `_build_class_hierarchy` followed by dict lookup: the source builds
a dict over all classes appearing in subclass edges; empty dict and
missing key both give no entry. -/
def classHierarchyLookup (edges : List (String × String)) (mapping : Mapping)
    (cls : String) : Option (List String) :=
  let children := buildChildren edges
  if children.isEmpty then none
  else
    let allClasses := children.map (·.1) ++ children.flatMap (·.2)
    if allClasses.contains cls then
      some ((collectDescendants children (edges.length + 1) cls).map mapping.label_for)
    else none

/-- `_is_relationship_constraint`. -/
def isRelationshipConstraint (nodeKind : Option String)
    (shNode : Option ShaclNodeRef) (shClass : Option String)
    (shDatatype : Option String) : Bool :=
  match nodeKind with
  | some nk => nk == SHNS ++ "IRI" || nk == SHNS ++ "BlankNodeOrIRI"
  | none =>
    if shNode.isSome || shClass.isSome then true
    else if shDatatype.isSome then false
    else false

/-- `_relationship_checks`. -/
def relationshipChecks (shapeIri label predicateIri : String)
    (minCount : Int) (maxCount : Option Int) (severity : Severity)
    (shNode : Option ShaclNodeRef) (shClass : Option String)
    (mapping : Mapping) (direction : String)
    (hierLookup : String → Option (List String)) : List Check :=
  let relType := mapping.relationship_for predicateIri
  let resolved : String × Option String :=
    match shNode with
    | some ref =>
      match ref.targetClass with
      | some tc => (mapping.label_for tc, some tc)
      | none => (mapping.label_for ref.iri, some ref.iri)
    | none =>
      match shClass with
      | some c => (mapping.label_for c, some c)
      | none => ("Unknown", none)
  let targetLabel := resolved.1
  let acceptable : Option (List String) :=
    match resolved.2 with
    | some t => if t != "" then hierLookup t else none
    | none => none
  [Check.mk
    { id := pyLower label ++ "-" ++ pyLower relType ++ "-cardinality"
    , type := .RELATIONSHIP_CARDINALITY
    , shape := some shapeIri
    , target_label := label
    , severity := severity
    , message := relCardinalityMessage label relType targetLabel minCount maxCount
    , relationship := some ⟨relType, direction, targetLabel⟩
    , min_count := some minCount
    , max_count := maxCount
    , acceptable_labels := acceptable }]

/-- `_parse_qualified_filter`. -/
def parseQualifiedFilter (qvs : QvsView) (shapeIri label propName : String)
    (mapping : Mapping) : Option Check :=
  match qvs.datatype with
  | some dt =>
    let lpgType := (dictGet XSD_TO_LPG_TYPE dt).getD (Mapping.localName dt)
    some (Check.mk
      { id := pyLower label ++ "-" ++ propName ++ "-qfilter-type"
      , type := .PROPERTY_TYPE
      , shape := some shapeIri
      , target_label := label
      , severity := .VIOLATION
      , message := "Qualified filter: type must be " ++ lpgType
      , property := some propName
      , expected_type := some lpgType })
  | none =>
    match qvs.class_ with
    | some c =>
      let innerLabel := mapping.label_for c
      some (Check.mk
        { id := pyLower label ++ "-" ++ propName ++ "-qfilter-class"
        , type := .PROPERTY_TYPE
        , shape := some shapeIri
        , target_label := innerLabel
        , severity := .VIOLATION
        , message := "Qualified filter: must be " ++ innerLabel
        , property := some propName
        , expected_type := some innerLabel })
    | none =>
      match qvs.inList with
      | some allowed =>
        some (Check.mk
          { id := pyLower label ++ "-" ++ propName ++ "-qfilter-values"
          , type := .PROPERTY_VALUE_IN
          , shape := some shapeIri
          , target_label := label
          , severity := .VIOLATION
          , message := "Qualified filter: value must be one of " ++ pyListRepr allowed
          , property := some propName
          , allowed_values := some allowed })
      | none => none

/-- The annotation-mutation step of `_property_checks`: attach
`sh:defaultValue` / `sh:order` to the last emitted check when present. -/
def applyAnnotations (checks : List Check) (propName : String)
    (dv : Option LpgValue) (ov : Option Int) : List Check :=
  if dv.isSome || ov.isSome then
    match checks.getLast? with
    | some last =>
      if last.data.property == some propName then
        checks.dropLast
          ++ [Check.mk { last.data with default_value := dv, display_order := ov }]
      else checks
    | none => checks
  else checks

/-- The existence-check block of `_property_checks`. -/
def shaclExistsChecks (shapeIri label propName : String) (isOptional : Bool)
    (severity : Severity) : List Check :=
  if !isOptional then
    [Check.mk
      { id := pyLower label ++ "-" ++ propName ++ "-exists"
      , type := .PROPERTY_EXISTS
      , shape := some shapeIri
      , target_label := label
      , severity := severity
      , message := label ++ " node missing required \x27" ++ propName
          ++ "\x27 property"
      , property := some propName }]
  else []

/-- The `sh:datatype` block of `_property_checks`. -/
def shaclDatatypeChecks (dt : Option String) (shapeIri label propName : String)
    (isOptional : Bool) (severity : Severity) : List Check :=
  match dt with
  | some d =>
    let lpgType := (dictGet XSD_TO_LPG_TYPE d).getD (Mapping.localName d)
    [Check.mk
      { id := pyLower label ++ "-" ++ propName ++ "-type"
      , type := .PROPERTY_TYPE
      , shape := some shapeIri
      , target_label := label
      , severity := severity
      , message := label ++ "." ++ propName ++ " must be of type " ++ lpgType
      , property := some propName
      , expected_type := some lpgType
      , only_if_exists := isOptional }]
  | none => []

/-- The `sh:in` block of `_property_checks`. -/
def shaclInChecks (inList : Option (List LpgValue))
    (shapeIri label propName : String) (isOptional : Bool)
    (severity : Severity) : List Check :=
  match inList with
  | some allowed =>
    [Check.mk
      { id := pyLower label ++ "-" ++ propName ++ "-values"
      , type := .PROPERTY_VALUE_IN
      , shape := some shapeIri
      , target_label := label
      , severity := severity
      , message := label ++ "." ++ propName ++ " must be one of: "
          ++ pyListRepr allowed
      , property := some propName
      , allowed_values := some allowed
      , only_if_exists := isOptional }]
  | none => []

/-- The `sh:hasValue` block of `_property_checks`. -/
def shaclHasValueChecks (hv : Option LpgValue)
    (shapeIri label propName : String) (isOptional : Bool)
    (severity : Severity) : List Check :=
  match hv with
  | some v =>
    [Check.mk
      { id := pyLower label ++ "-" ++ propName ++ "-hasvalue"
      , type := .PROPERTY_VALUE_IN
      , shape := some shapeIri
      , target_label := label
      , severity := severity
      , message := label ++ "." ++ propName ++ " must have value " ++ v.pyStr
      , property := some propName
      , allowed_values := some [v]
      , only_if_exists := isOptional }]
  | none => []

/-- The `sh:pattern` block of `_property_checks`. -/
def shaclPatternChecks (pat flags : Option String)
    (shapeIri label propName : String) (isOptional : Bool)
    (severity : Severity) : List Check :=
  match pat with
  | some patternStr =>
    [Check.mk
      { id := pyLower label ++ "-" ++ propName ++ "-pattern"
      , type := .PROPERTY_PATTERN
      , shape := some shapeIri
      , target_label := label
      , severity := severity
      , message := label ++ "." ++ propName ++ " must match pattern \x27"
          ++ patternStr ++ "\x27"
      , property := some propName
      , pattern := some patternStr
      , pattern_flags := flags
      , only_if_exists := isOptional }]
  | none => []

/-- The `sh:minLength`/`sh:maxLength` block of `_property_checks`. -/
def shaclStrlenChecks (minL maxL : Option Int)
    (shapeIri label propName : String) (isOptional : Bool)
    (severity : Severity) : List Check :=
  if minL.isSome || maxL.isSome then
    let msgParts :=
      (match minL with
       | some n => ["at least " ++ toString n]
       | none => [])
      ++ (match maxL with
       | some n => ["at most " ++ toString n]
       | none => [])
    [Check.mk
      { id := pyLower label ++ "-" ++ propName ++ "-strlen"
      , type := .PROPERTY_STRING_LENGTH
      , shape := some shapeIri
      , target_label := label
      , severity := severity
      , message := label ++ "." ++ propName ++ " length must be "
          ++ String.intercalate " and " msgParts ++ " characters"
      , property := some propName
      , min_length := minL
      , max_length := maxL
      , only_if_exists := isOptional }]
  else []

/-- The numeric-range block of `_property_checks`. -/
def shaclRangeChecks (minI maxI minE maxE : Option Rat)
    (shapeIri label propName : String) (isOptional : Bool)
    (severity : Severity) : List Check :=
  if minI.isSome || maxI.isSome || minE.isSome || maxE.isSome then
    let msgParts :=
      (match minI with | some v => [">= " ++ toString v] | none => [])
      ++ (match maxI with | some v => ["<= " ++ toString v] | none => [])
      ++ (match minE with | some v => ["> " ++ toString v] | none => [])
      ++ (match maxE with | some v => ["< " ++ toString v] | none => [])
    [Check.mk
      { id := pyLower label ++ "-" ++ propName ++ "-range"
      , type := .PROPERTY_RANGE
      , shape := some shapeIri
      , target_label := label
      , severity := severity
      , message := label ++ "." ++ propName ++ " must be "
          ++ String.intercalate ", " msgParts
      , property := some propName
      , min_inclusive := minI
      , max_inclusive := maxI
      , min_exclusive := minE
      , max_exclusive := maxE
      , only_if_exists := isOptional }]
  else []

/-- One entry of the property-pair loop of `_property_checks`. -/
def shaclPairCheckFor (compVal : Option String) (compType : CompType)
    (shapeIri label propName : String) (isOptional : Bool)
    (severity : Severity) (mapping : Mapping) : List Check :=
  match compVal with
  | some compIri =>
    let compProp := mapping.property_for compIri
    [Check.mk
      { id := pyLower label ++ "-" ++ propName ++ "-"
          ++ pyLower compType.value
      , type := .PROPERTY_PAIR
      , shape := some shapeIri
      , target_label := label
      , severity := severity
      , message := label ++ "." ++ propName ++ " must be " ++ compType.value
          ++ " " ++ label ++ "." ++ compProp
      , property := some propName
      , compare_property := some compProp
      , comparison_type := some compType
      , only_if_exists := isOptional }]
  | none => []

/-- The property-pair loop of `_property_checks` (`sh:equals`,
`sh:disjoint`, `sh:lessThan`, `sh:lessThanOrEquals`, in order). -/
def shaclPairChecks (eqV disV ltV lteV : Option String)
    (shapeIri label propName : String) (isOptional : Bool)
    (severity : Severity) (mapping : Mapping) : List Check :=
  shaclPairCheckFor eqV .equals shapeIri label propName isOptional severity
      mapping
    ++ shaclPairCheckFor disV .disjoint shapeIri label propName isOptional
      severity mapping
    ++ shaclPairCheckFor ltV .lessThan shapeIri label propName isOptional
      severity mapping
    ++ shaclPairCheckFor lteV .lessThanOrEquals shapeIri label propName
      isOptional severity mapping

/-- The `sh:uniqueLang` block of `_property_checks`. -/
def shaclUniqueLangChecks (ul : Option Bool)
    (shapeIri label propName : String) : List Check :=
  if ul == some true then
    [Check.mk
      { id := pyLower label ++ "-" ++ propName ++ "-uniquelang"
      , type := .UNIQUE_LANG
      , shape := some shapeIri
      , target_label := label
      , severity := .INFO
      , message := "sh:uniqueLang on " ++ label ++ "." ++ propName
          ++ " — LPG has no native language tags; constraint acknowledged but not enforced"
      , property := some propName }]
  else []

/-- The `sh:qualifiedValueShape` block of `_property_checks`. -/
def shaclQualifiedChecks (qvs : Option QvsView) (qMin qMax : Option Int)
    (shapeIri label propName : String) (severity : Severity)
    (mapping : Mapping) : List Check :=
  match qvs with
  | some q =>
    match parseQualifiedFilter q shapeIri label propName mapping with
    | some qFilter =>
      let msgParts :=
        (match qMin with | some n => ["at least " ++ toString n] | none => [])
        ++ (match qMax with | some n => ["at most " ++ toString n] | none => [])
      [Check.mk
        { id := pyLower label ++ "-" ++ propName ++ "-qualified"
        , type := .QUALIFIED_CARDINALITY
        , shape := some shapeIri
        , target_label := label
        , severity := severity
        , message := label ++ "." ++ propName ++ " must have "
            ++ String.intercalate " and " msgParts
            ++ " values matching qualified shape"
        , property := some propName
        , qualified_filter := some qFilter
        , qualified_min := qMin
        , qualified_max := qMax }]
    | none => []
  | none => []

/-- `_property_checks`: the facet blocks in source order, then the
annotation attachment, then the qualified-cardinality block. -/
def propertyChecks (ps : PropertyShape) (shapeIri label predicateIri : String)
    (minCount : Int) (severity : Severity) (mapping : Mapping) : List Check :=
  let propName := mapping.property_for predicateIri
  let isOptional := minCount == 0
  let checks :=
    shaclExistsChecks shapeIri label propName isOptional severity
      ++ shaclDatatypeChecks ps.datatype shapeIri label propName isOptional
        severity
      ++ shaclInChecks ps.inList shapeIri label propName isOptional severity
      ++ shaclHasValueChecks ps.hasValue shapeIri label propName isOptional
        severity
      ++ shaclPatternChecks ps.pattern ps.flags shapeIri label propName
        isOptional severity
      ++ shaclStrlenChecks ps.minLength ps.maxLength shapeIri label propName
        isOptional severity
      ++ shaclRangeChecks ps.minInclusive ps.maxInclusive ps.minExclusive
        ps.maxExclusive shapeIri label propName isOptional severity
      ++ shaclPairChecks ps.equals_ ps.disjoint ps.lessThan
        ps.lessThanOrEquals shapeIri label propName isOptional severity mapping
      ++ shaclUniqueLangChecks ps.uniqueLang shapeIri label propName
  let checks := applyAnnotations checks propName ps.defaultValue ps.order
  checks ++ shaclQualifiedChecks ps.qualifiedValueShape ps.qualifiedMinCount
    ps.qualifiedMaxCount shapeIri label propName severity mapping


/-- `_process_property_shape`. -/
def processPropertyShape (ps : PropertyShape) (shapeIri label : String)
    (mapping : Mapping) (hierLookup : String → Option (List String)) :
    List Check :=
  match ps.path with
  | none => []
  | some p =>
    let step : Option (String × String) :=
      match p with
      | .uri iri => some (iri, "outgoing")
      | .inverseOf iri => some (iri, "incoming")
      | .complex => none
    match step with
    | none => []
    | some (predicateIri, direction) =>
      let minCount : Int := ps.minCount.getD 0
      let maxCount : Option Int := ps.maxCount
      let severity := shaclSeverity ps.severityIri
      if isRelationshipConstraint ps.nodeKind ps.node ps.class_ ps.datatype then
        relationshipChecks shapeIri label predicateIri minCount maxCount severity
          ps.node ps.class_ mapping direction hierLookup
      else
        propertyChecks ps shapeIri label predicateIri minCount severity mapping

/-- `_parse_logical_inner`. -/
def parseLogicalInner (inner : InnerShape) (shapeIri label : String)
    (mapping : Mapping) : List Check :=
  inner.properties.flatMap fun ps =>
    match ps.path with
    | some (.uri iri) =>
      let propName := mapping.property_for iri
      let typeChecks : List Check :=
        match ps.datatype with
        | some dt =>
          let lpgType := (dictGet XSD_TO_LPG_TYPE dt).getD (Mapping.localName dt)
          [Check.mk
            { id := pyLower label ++ "-" ++ propName ++ "-inner-type"
            , type := .PROPERTY_TYPE
            , shape := some shapeIri
            , target_label := label
            , severity := .VIOLATION
            , message := label ++ "." ++ propName ++ " must be of type " ++ lpgType
            , property := some propName
            , expected_type := some lpgType }]
        | none => []
      let rangeChecks : List Check :=
        if ps.minInclusive.isSome || ps.maxInclusive.isSome then
          [Check.mk
            { id := pyLower label ++ "-" ++ propName ++ "-inner-range"
            , type := .PROPERTY_RANGE
            , shape := some shapeIri
            , target_label := label
            , severity := .VIOLATION
            , message := label ++ "." ++ propName ++ " range constraint"
            , property := some propName
            , min_inclusive := ps.minInclusive
            , max_inclusive := ps.maxInclusive }]
        else []
      let patternChecks : List Check :=
        match ps.pattern with
        | some pat =>
          [Check.mk
            { id := pyLower label ++ "-" ++ propName ++ "-inner-pattern"
            , type := .PROPERTY_PATTERN
            , shape := some shapeIri
            , target_label := label
            , severity := .VIOLATION
            , message := label ++ "." ++ propName ++ " must match pattern \x27"
                ++ pat ++ "\x27"
            , property := some propName
            , pattern := some pat }]
        | none => []
      let hasValueChecks : List Check :=
        match ps.hasValue with
        | some v =>
          [Check.mk
            { id := pyLower label ++ "-" ++ propName ++ "-inner-hasvalue"
            , type := .PROPERTY_VALUE_IN
            , shape := some shapeIri
            , target_label := label
            , severity := .VIOLATION
            , message := label ++ "." ++ propName ++ " must equal \x27"
                ++ v.pyStr ++ "\x27"
            , property := some propName
            , allowed_values := some [v]
            , only_if_exists := true }]
        | none => []
      let existsChecks : List Check :=
        match ps.minCount with
        | some n =>
          if n > 0 then
            [Check.mk
              { id := pyLower label ++ "-" ++ propName ++ "-inner-exists"
              , type := .PROPERTY_EXISTS
              , shape := some shapeIri
              , target_label := label
              , severity := .VIOLATION
              , message := label ++ " node must have \x27" ++ propName
                  ++ "\x27 property"
              , property := some propName }]
          else []
        | none => []
      typeChecks ++ rangeChecks ++ patternChecks ++ hasValueChecks ++ existsChecks
    | _ => []

/-- `_logical_constraints`. -/
def logicalConstraints (ns : NodeShape) (shapeIri label : String)
    (mapping : Mapping) : List Check :=
  let notChecks : List Check :=
    ns.nots.flatMap fun notShape =>
      let sub := parseLogicalInner notShape shapeIri label mapping
      match sub with
      | [] => []
      | first :: _ =>
        [Check.mk
          { id := pyLower label ++ "-logical-not"
          , type := .LOGICAL_NOT
          , shape := some shapeIri
          , target_label := label
          , severity := .VIOLATION
          , message := label ++ " must NOT satisfy: " ++ first.data.message
          , sub_checks := sub }]
  let comboChecks : Option (List InnerShape) → CheckType → String → List Check :=
    fun listNode checkType opName =>
      match listNode with
      | none => []
      | some innerShapes =>
        let subs := innerShapes.flatMap
          (fun s => parseLogicalInner s shapeIri label mapping)
        if subs.isEmpty then []
        else
          [Check.mk
            { id := pyLower label ++ "-logical-" ++ pyLower opName
            , type := checkType
            , shape := some shapeIri
            , target_label := label
            , severity := .VIOLATION
            , message := label ++ " must satisfy " ++ opName ++ " of "
                ++ toString subs.length ++ " conditions"
            , sub_checks := subs }]
  notChecks
    ++ comboChecks ns.andList .LOGICAL_AND "AND"
    ++ comboChecks ns.orList .LOGICAL_OR "OR"
    ++ comboChecks ns.xoneList .LOGICAL_XONE "XONE"

/-- The per-target-class body of the `parse_shacl_to_plan` loop:
property-shape checks, the `sh:closed` check, then logical checks. -/
def shaclChecksForTargetClass (ns : NodeShape) (classIri : String)
    (mapping : Mapping) (hierLookup : String → Option (List String)) :
    List Check :=
  let shapeIri := ns.iri
  let label := mapping.label_for classIri
  let declaredPaths : List String :=
    ns.properties.filterMap fun ps =>
      match ps.path with
      | some (.uri iri) => some iri
      | _ => none
  let propChecks : List Check :=
    ns.properties.flatMap fun ps =>
      processPropertyShape ps shapeIri label mapping hierLookup
  let closedChecks : List Check :=
    if ns.closed == some true then
      let ignoredIris := ns.ignoredProperties.getD []
      let allAllowed := declaredPaths ++ ignoredIris
      let allowedProps := allAllowed.map mapping.property_for
      [Check.mk
        { id := pyLower label ++ "-closed-undeclared-props"
        , type := .UNDECLARED_PROPERTIES
        , shape := some shapeIri
        , target_label := label
        , severity := .VIOLATION
        , message := label ++ " is a closed shape; only declared properties are allowed: "
            ++ pyStrListRepr allowedProps
        , allowed_properties := some allowedProps }]
    else []
  propChecks ++ closedChecks ++ logicalConstraints ns shapeIri label mapping

/-- The resolved target classes of a node shape (`sh:targetClass`
objects, falling back to the shape node itself). -/
def NodeShape.resolvedTargets (ns : NodeShape) : List String :=
  if ns.targetClasses.isEmpty then [ns.iri] else ns.targetClasses

/-- `parse_shacl_to_plan` (from the graph view onwards; Turtle parsing
is the external `rdflib` library). -/
def parse_shacl_to_plan (g : ShaclGraph) (mapping : Option Mapping := none)
    (source : String := "<string>") (strict : Bool := false) : ValidationPlan :=
  let mapping := mapping.getD {}
  let hierLookup := classHierarchyLookup g.subClassEdges mapping
  let classIris : List String :=
    g.nodeShapes.flatMap fun ns => ns.resolvedTargets
  let checks : List Check :=
    g.nodeShapes.flatMap fun ns =>
      ns.resolvedTargets.flatMap fun classIri =>
        shaclChecksForTargetClass ns classIri mapping hierLookup
  let checks :=
    if strict then checks ++ generateStrictChecks classIris checks mapping
    else checks
  { schema_source := source
  , checks := checks
  , shapes := classIris
  , mapping := mapping }

/-! ## Cypher backend (`graphlint/backends/cypher.py`)

`compile_check` raises `NotImplementedError` for a kind with no
generator; handlers raise `AttributeError`/`TypeError`/`KeyError` when
a payload field required by the kind is `None`.  Both are modelled as
`Except.error`.  f-string interpolation of a `None` field that Python
renders as the text `None` is modelled by `pyInterp`. -/

/-- Python f-string interpolation of an `Optional[str]`. -/
def pyInterp (o : Option String) : String :=
  match o with
  | some s => s
  | none => "None"

/-- `_cypher_type_check`. -/
def cypherTypeCheck (prop expectedType : String) : String :=
  let typeMap : List (String × String) :=
    [ ("string", "STRING"), ("integer", "INTEGER"), ("float", "FLOAT")
    , ("boolean", "BOOLEAN"), ("date", "DATE"), ("datetime", "DATETIME") ]
  let cypherType := (dictGet typeMap expectedType).getD (pyUpper expectedType)
  "NOT valueType(n." ++ prop ++ ") STARTS WITH \x27" ++ cypherType ++ "\x27"

/-- `_cypher_list_literal`. -/
def cypherListLiteral (values : List LpgValue) : String :=
  "[" ++ String.intercalate ", "
    (values.map fun v =>
      match v with
      | .str s => "\x27" ++ pyReplaceChar s '\x27' "\\\x27" ++ "\x27"
      | .bool b => if b then "true" else "false"
      | .int n => toString n)
    ++ "]"

/-- Standard violation-row tail `RETURN elementId(n) ... check_id`. -/
def cypherReturnTail (checkId : String) : String :=
  "RETURN elementId(n) AS node_id,\n"
    ++ "       labels(n) AS labels,\n"
    ++ "       \x27" ++ checkId ++ "\x27 AS check_id"

/-- `CypherBackend._property_exists`. -/
def cypherPropertyExists (c : CheckData Check) : String :=
  "MATCH (n:" ++ c.target_label ++ ")\n"
    ++ "WHERE n." ++ pyInterp c.property ++ " IS NULL\n"
    ++ cypherReturnTail c.id

/-- The `where` clause of `CypherBackend._property_type` (the source's
`if only_if_exists / else` branches are textually identical). -/
def cypherTypeWhere (c : CheckData Check) (typeCheckStr : String) : String :=
  if c.only_if_exists then
    "WHERE n." ++ pyInterp c.property ++ " IS NOT NULL AND " ++ typeCheckStr
  else
    "WHERE n." ++ pyInterp c.property ++ " IS NOT NULL AND " ++ typeCheckStr

def cypherPropertyType (c : CheckData Check) : Except String String := do
  let expectedType ← match c.expected_type with
    | some et => pure et
    | none => .error "AttributeError: NoneType has no attribute upper"
  let typeCheckStr := cypherTypeCheck (pyInterp c.property) expectedType
  let whereClause := cypherTypeWhere c typeCheckStr
  pure ("MATCH (n:" ++ c.target_label ++ ")\n"
    ++ whereClause ++ "\n"
    ++ "RETURN elementId(n) AS node_id,\n"
    ++ "       labels(n) AS labels,\n"
    ++ "       n." ++ pyInterp c.property ++ " AS actual_value,\n"
    ++ "       \x27" ++ c.id ++ "\x27 AS check_id")

/-- The `where` clause of `CypherBackend._property_value_in`. -/
def cypherValueInWhere (c : CheckData Check) (valuesStr : String) : String :=
  if c.only_if_exists then
    "WHERE n." ++ pyInterp c.property ++ " IS NOT NULL AND NOT n."
      ++ pyInterp c.property ++ " IN " ++ valuesStr
  else
    "WHERE NOT n." ++ pyInterp c.property ++ " IN " ++ valuesStr

/-- `CypherBackend._property_value_in`. -/
def cypherPropertyValueIn (c : CheckData Check) : Except String String := do
  let values ← match c.allowed_values with
    | some vs => pure vs
    | none => .error "TypeError: NoneType is not iterable"
  let valuesStr := cypherListLiteral values
  pure ("MATCH (n:" ++ c.target_label ++ ")\n"
    ++ cypherValueInWhere c valuesStr ++ "\n"
    ++ "RETURN elementId(n) AS node_id,\n"
    ++ "       labels(n) AS labels,\n"
    ++ "       n." ++ pyInterp c.property ++ " AS actual_value,\n"
    ++ "       \x27" ++ c.id ++ "\x27 AS check_id")

/-- The no-op marker emitted for an unconstrained cardinality check. -/
def noopCardinalityMarker (checkId : String) : String :=
  "// Check " ++ checkId ++ ": no constraint (0..*)\n"
    ++ "// This check always passes — skipped"

/-- `CypherBackend._relationship_cardinality`. -/
def cypherRelationshipCardinality (c : CheckData Check) : Except String String := do
  let rel ← match c.relationship with
    | some r => pure r
    | none => .error "AttributeError: NoneType has no attribute direction"
  let minC : Int := c.min_count.getD 0
  let maxC : Option Int := c.max_count
  let pattern :=
    if rel.direction == "outgoing" then
      "(n)-[r:" ++ rel.type ++ "]->(t:" ++ rel.target_label ++ ")"
    else
      "(n)<-[r:" ++ rel.type ++ "]-(t:" ++ rel.target_label ++ ")"
  let conditions : List String :=
    (if minC > 0 then ["rel_count < " ++ toString minC] else [])
      ++ (match maxC with
          | some m => ["rel_count > " ++ toString m]
          | none => [])
  if conditions.isEmpty then
    pure (noopCardinalityMarker c.id)
  else
    let whereClause := String.intercalate " OR " conditions
    pure ("MATCH (n:" ++ c.target_label ++ ")\n"
      ++ "OPTIONAL MATCH " ++ pattern ++ "\n"
      ++ "WITH n, count(r) AS rel_count\n"
      ++ "WHERE " ++ whereClause ++ "\n"
      ++ "RETURN elementId(n) AS node_id,\n"
      ++ "       labels(n) AS labels,\n"
      ++ "       rel_count AS actual_count,\n"
      ++ "       \x27" ++ c.id ++ "\x27 AS check_id")

/-- `CypherBackend._relationship_endpoint`. -/
def cypherRelationshipEndpoint (c : CheckData Check) : Except String String := do
  let rel ← match c.relationship with
    | some r => pure r
    | none => .error "AttributeError: NoneType has no attribute type"
  pure ("MATCH (s)-[r:" ++ rel.type ++ "]->(t)\n"
    ++ "WHERE NOT (s:" ++ c.target_label ++ " AND t:" ++ rel.target_label ++ ")\n"
    ++ "RETURN elementId(r) AS rel_id,\n"
    ++ "       type(r) AS rel_type,\n"
    ++ "       labels(s) AS source_labels,\n"
    ++ "       labels(t) AS target_labels,\n"
    ++ "       \x27" ++ c.id ++ "\x27 AS check_id")

/-- `CypherBackend._undeclared_labels`. -/
def cypherUndeclaredLabels (c : CheckData Check) : Except String String := do
  let values ← match c.allowed_values with
    | some vs => pure vs
    | none => .error "TypeError: NoneType is not iterable"
  let labelsStr := cypherListLiteral values
  pure ("CALL db.labels() YIELD label\n"
    ++ "WHERE NOT label IN " ++ labelsStr ++ "\n"
    ++ "WITH label\n"
    ++ "MATCH (n) WHERE label IN labels(n)\n"
    ++ "WITH n, label LIMIT 1\n"
    ++ "RETURN elementId(n) AS node_id,\n"
    ++ "       [label] AS labels,\n"
    ++ "       label AS undeclared_label,\n"
    ++ "       \x27" ++ c.id ++ "\x27 AS check_id")

/-- `CypherBackend._undeclared_relationship_types`. -/
def cypherUndeclaredRelTypes (c : CheckData Check) : Except String String := do
  let rels ← match c.allowed_relationships with
    | some rs => pure rs
    | none => .error "TypeError: NoneType is not iterable"
  let relsStr := cypherListLiteral (rels.map LpgValue.str)
  pure ("CALL db.relationshipTypes() YIELD relationshipType\n"
    ++ "WHERE NOT relationshipType IN " ++ relsStr ++ "\n"
    ++ "WITH relationshipType\n"
    ++ "MATCH ()-[r]->() WHERE type(r) = relationshipType\n"
    ++ "WITH r, relationshipType LIMIT 1\n"
    ++ "RETURN elementId(startNode(r)) AS node_id,\n"
    ++ "       labels(startNode(r)) AS labels,\n"
    ++ "       relationshipType AS undeclared_type,\n"
    ++ "       \x27" ++ c.id ++ "\x27 AS check_id")

/-- `CypherBackend._undeclared_properties`. -/
def cypherUndeclaredProperties (c : CheckData Check) : Except String String := do
  let props ← match c.allowed_properties with
    | some ps => pure ps
    | none => .error "TypeError: NoneType is not iterable"
  let propsStr := cypherListLiteral (props.map LpgValue.str)
  pure ("MATCH (n:" ++ c.target_label ++ ")\n"
    ++ "WITH n, [k IN keys(n) WHERE NOT k IN " ++ propsStr ++ "] AS extra\n"
    ++ "WHERE size(extra) > 0\n"
    ++ "UNWIND extra AS undeclared_key\n"
    ++ "RETURN elementId(n) AS node_id,\n"
    ++ "       labels(n) AS labels,\n"
    ++ "       undeclared_key AS undeclared_property,\n"
    ++ "       \x27" ++ c.id ++ "\x27 AS check_id")

/-- `CypherBackend._empty_shape`. -/
def cypherEmptyShape (c : CheckData Check) : String :=
  "OPTIONAL MATCH (n:" ++ c.target_label ++ ")\n"
    ++ "WITH count(n) AS cnt\n"
    ++ "WHERE cnt = 0\n"
    ++ "RETURN \x27none\x27 AS node_id,\n"
    ++ "       [\x27" ++ c.target_label ++ "\x27] AS labels,\n"
    ++ "       0 AS instance_count,\n"
    ++ "       \x27" ++ c.id ++ "\x27 AS check_id"

/-- The `dispatch` dictionary of `CypherBackend.compile_check`:
`dispatch.get(check.type)` returns the handler or `None`. -/
def cypherDispatch (k : CheckType) :
    Option (CheckData Check → Except String String) :=
  match k with
  | .PROPERTY_EXISTS => some fun c => pure (cypherPropertyExists c)
  | .PROPERTY_TYPE => some cypherPropertyType
  | .PROPERTY_VALUE_IN => some cypherPropertyValueIn
  | .RELATIONSHIP_CARDINALITY => some cypherRelationshipCardinality
  | .RELATIONSHIP_ENDPOINT => some cypherRelationshipEndpoint
  | .UNDECLARED_LABELS => some cypherUndeclaredLabels
  | .UNDECLARED_RELATIONSHIP_TYPES => some cypherUndeclaredRelTypes
  | .UNDECLARED_PROPERTIES => some cypherUndeclaredProperties
  | .EMPTY_SHAPE => some fun c => pure (cypherEmptyShape c)
  | _ => none

/-- `CypherBackend.compile_check`. -/
def cypherCompileCheck (check : Check) : Except String String :=
  match cypherDispatch check.data.type with
  | some handler => handler check.data
  | none =>
    .error ("Check type " ++ check.data.type.value
      ++ " not implemented for Cypher backend")

/-! ## GQL backend (`graphlint/backends/gql.py`) -/

/-- `_gql_type_check`. -/
def gqlTypeCheck (prop expectedType : String) : String :=
  let typeMap : List (String × String) :=
    [ ("string", "STRING"), ("integer", "INTEGER"), ("float", "FLOAT")
    , ("boolean", "BOOLEAN"), ("date", "DATE"), ("datetime", "TIMESTAMP") ]
  let gqlType := (dictGet typeMap expectedType).getD (pyUpper expectedType)
  "NOT value_type(n." ++ prop ++ ") STARTS WITH \x27" ++ gqlType ++ "\x27"

/-- `_gql_list_literal`. -/
def gqlListLiteral (values : List LpgValue) : String :=
  "[" ++ String.intercalate ", "
    (values.map fun v =>
      match v with
      | .str s => "\x27" ++ pyReplaceChar s '\x27' "\\\x27" ++ "\x27"
      | .bool b => if b then "TRUE" else "FALSE"
      | .int n => toString n)
    ++ "]"

/-- Standard violation-row tail `RETURN element_id(n) ... check_id`. -/
def gqlReturnTail (checkId : String) : String :=
  "RETURN element_id(n) AS node_id,\n"
    ++ "       labels(n) AS labels,\n"
    ++ "       \x27" ++ checkId ++ "\x27 AS check_id"

/-- `GQLBackend._property_exists`. -/
def gqlPropertyExists (c : CheckData Check) : String :=
  "MATCH (n:" ++ c.target_label ++ ")\n"
    ++ "WHERE n." ++ pyInterp c.property ++ " IS NULL\n"
    ++ gqlReturnTail c.id

/-- The `where` clause of `GQLBackend._property_type` (both branches
are textually identical, as in the source). -/
def gqlTypeWhere (c : CheckData Check) (typeCheckStr : String) : String :=
  if c.only_if_exists then
    "WHERE n." ++ pyInterp c.property ++ " IS NOT NULL AND " ++ typeCheckStr
  else
    "WHERE n." ++ pyInterp c.property ++ " IS NOT NULL AND " ++ typeCheckStr

def gqlPropertyType (c : CheckData Check) : Except String String := do
  let expectedType ← match c.expected_type with
    | some et => pure et
    | none => .error "AttributeError: NoneType has no attribute upper"
  let typeCheckStr := gqlTypeCheck (pyInterp c.property) expectedType
  let whereClause := gqlTypeWhere c typeCheckStr
  pure ("MATCH (n:" ++ c.target_label ++ ")\n"
    ++ whereClause ++ "\n"
    ++ "RETURN element_id(n) AS node_id,\n"
    ++ "       labels(n) AS labels,\n"
    ++ "       n." ++ pyInterp c.property ++ " AS actual_value,\n"
    ++ "       \x27" ++ c.id ++ "\x27 AS check_id")

/-- The `where` clause of `GQLBackend._property_value_in`. -/
def gqlValueInWhere (c : CheckData Check) (valuesStr : String) : String :=
  if c.only_if_exists then
    "WHERE n." ++ pyInterp c.property ++ " IS NOT NULL AND NOT n."
      ++ pyInterp c.property ++ " IN " ++ valuesStr
  else
    "WHERE NOT n." ++ pyInterp c.property ++ " IN " ++ valuesStr

/-- `GQLBackend._property_value_in`. -/
def gqlPropertyValueIn (c : CheckData Check) : Except String String := do
  let values ← match c.allowed_values with
    | some vs => pure vs
    | none => .error "TypeError: NoneType is not iterable"
  let valuesStr := gqlListLiteral values
  pure ("MATCH (n:" ++ c.target_label ++ ")\n"
    ++ gqlValueInWhere c valuesStr ++ "\n"
    ++ "RETURN element_id(n) AS node_id,\n"
    ++ "       labels(n) AS labels,\n"
    ++ "       n." ++ pyInterp c.property ++ " AS actual_value,\n"
    ++ "       \x27" ++ c.id ++ "\x27 AS check_id")

/-- The regex actually embedded by the pattern handlers: escape single
quotes, prepend `(?i)` when the flags contain `i`. -/
def gqlRegexOf (pat : String) (flags : Option String) : String :=
  let escaped := pyReplaceChar pat '\x27' "\\\x27"
  if strOptTruthy flags && pyContainsChar (flags.getD "") 'i' then
    "(?i)" ++ escaped
  else escaped

/-- `GQLBackend._property_pattern`. -/
def gqlPropertyPattern (c : CheckData Check) : Except String String := do
  let pat ← match c.pattern with
    | some p => pure p
    | none => .error "AttributeError: NoneType has no attribute replace"
  let regex := gqlRegexOf pat c.pattern_flags
  pure ("MATCH (n:" ++ c.target_label ++ ")\n"
    ++ "WHERE n." ++ pyInterp c.property ++ " IS NOT NULL AND NOT n."
    ++ pyInterp c.property ++ " =~ \x27" ++ regex ++ "\x27\n"
    ++ "RETURN element_id(n) AS node_id,\n"
    ++ "       labels(n) AS labels,\n"
    ++ "       n." ++ pyInterp c.property ++ " AS actual_value,\n"
    ++ "       \x27" ++ c.id ++ "\x27 AS check_id")

/-- `GQLBackend._property_string_length`. -/
def gqlPropertyStringLength (c : CheckData Check) : String :=
  let conditions : List String :=
    (match c.min_length with
     | some n => ["size(n." ++ pyInterp c.property ++ ") < " ++ toString n]
     | none => [])
    ++ (match c.max_length with
     | some n => ["size(n." ++ pyInterp c.property ++ ") > " ++ toString n]
     | none => [])
  let whereClause := String.intercalate " OR " conditions
  "MATCH (n:" ++ c.target_label ++ ")\n"
    ++ "WHERE n." ++ pyInterp c.property ++ " IS NOT NULL AND ("
    ++ whereClause ++ ")\n"
    ++ "RETURN element_id(n) AS node_id,\n"
    ++ "       labels(n) AS labels,\n"
    ++ "       n." ++ pyInterp c.property ++ " AS actual_value,\n"
    ++ "       size(n." ++ pyInterp c.property ++ ") AS actual_length,\n"
    ++ "       \x27" ++ c.id ++ "\x27 AS check_id"

/-- `GQLBackend._property_range`. -/
def gqlPropertyRange (c : CheckData Check) : String :=
  let conditions : List String :=
    (match c.min_inclusive with
     | some v => ["n." ++ pyInterp c.property ++ " < " ++ toString v]
     | none => [])
    ++ (match c.max_inclusive with
     | some v => ["n." ++ pyInterp c.property ++ " > " ++ toString v]
     | none => [])
    ++ (match c.min_exclusive with
     | some v => ["n." ++ pyInterp c.property ++ " <= " ++ toString v]
     | none => [])
    ++ (match c.max_exclusive with
     | some v => ["n." ++ pyInterp c.property ++ " >= " ++ toString v]
     | none => [])
  let whereClause := String.intercalate " OR " conditions
  "MATCH (n:" ++ c.target_label ++ ")\n"
    ++ "WHERE n." ++ pyInterp c.property ++ " IS NOT NULL AND ("
    ++ whereClause ++ ")\n"
    ++ "RETURN element_id(n) AS node_id,\n"
    ++ "       labels(n) AS labels,\n"
    ++ "       n." ++ pyInterp c.property ++ " AS actual_value,\n"
    ++ "       \x27" ++ c.id ++ "\x27 AS check_id"

/-- `GQLBackend._property_pair` (`op_map[comp]` raises `KeyError` when
`comparison_type` is absent). -/
def gqlPropertyPair (c : CheckData Check) : Except String String := do
  let comp ← match c.comparison_type with
    | some ct => pure ct
    | none => .error "KeyError: None"
  let prop1 := pyInterp c.property
  let prop2 := pyInterp c.compare_property
  let condition :=
    match comp with
    | .equals => "n." ++ prop1 ++ " <> n." ++ prop2
    | .disjoint => "n." ++ prop1 ++ " = n." ++ prop2
    | .lessThan => "NOT (n." ++ prop1 ++ " < n." ++ prop2 ++ ")"
    | .lessThanOrEquals => "NOT (n." ++ prop1 ++ " <= n." ++ prop2 ++ ")"
  pure ("MATCH (n:" ++ c.target_label ++ ")\n"
    ++ "WHERE n." ++ prop1 ++ " IS NOT NULL AND n." ++ prop2 ++ " IS NOT NULL\n"
    ++ "  AND " ++ condition ++ "\n"
    ++ "RETURN element_id(n) AS node_id,\n"
    ++ "       labels(n) AS labels,\n"
    ++ "       n." ++ prop1 ++ " AS value1,\n"
    ++ "       n." ++ prop2 ++ " AS value2,\n"
    ++ "       \x27" ++ c.id ++ "\x27 AS check_id")

/-- `GQLBackend._relationship_cardinality`. -/
def gqlRelationshipCardinality (c : CheckData Check) : Except String String := do
  let rel ← match c.relationship with
    | some r => pure r
    | none => .error "AttributeError: NoneType has no attribute direction"
  let minC : Int := c.min_count.getD 0
  let maxC : Option Int := c.max_count
  let patternAndFilter : String × Option String :=
    if listOptTruthy c.acceptable_labels then
      let labelList := gqlListLiteral ((c.acceptable_labels.getD []).map LpgValue.str)
      let pat :=
        if rel.direction == "outgoing" then "(n)-[r:" ++ rel.type ++ "]->(t)"
        else "(n)<-[r:" ++ rel.type ++ "]-(t)"
      (pat, some ("WHERE any(lbl IN labels(t) WHERE lbl IN " ++ labelList ++ ")"))
    else
      let pat :=
        if rel.direction == "outgoing" then
          "(n)-[r:" ++ rel.type ++ "]->(t:" ++ rel.target_label ++ ")"
        else
          "(n)<-[r:" ++ rel.type ++ "]-(t:" ++ rel.target_label ++ ")"
      (pat, none)
  let conditions : List String :=
    (if minC > 0 then ["rel_count < " ++ toString minC] else [])
      ++ (match maxC with
          | some m => ["rel_count > " ++ toString m]
          | none => [])
  if conditions.isEmpty then
    pure (noopCardinalityMarker c.id)
  else
    let whereClause := String.intercalate " OR " conditions
    match patternAndFilter.2 with
    | some targetFilter =>
      pure ("MATCH (n:" ++ c.target_label ++ ")\n"
        ++ "OPTIONAL MATCH " ++ patternAndFilter.1 ++ "\n"
        ++ targetFilter ++ "\n"
        ++ "WITH n, count(r) AS rel_count\n"
        ++ "WHERE " ++ whereClause ++ "\n"
        ++ "RETURN element_id(n) AS node_id,\n"
        ++ "       labels(n) AS labels,\n"
        ++ "       rel_count AS actual_count,\n"
        ++ "       \x27" ++ c.id ++ "\x27 AS check_id")
    | none =>
      pure ("MATCH (n:" ++ c.target_label ++ ")\n"
        ++ "OPTIONAL MATCH " ++ patternAndFilter.1 ++ "\n"
        ++ "WITH n, count(r) AS rel_count\n"
        ++ "WHERE " ++ whereClause ++ "\n"
        ++ "RETURN element_id(n) AS node_id,\n"
        ++ "       labels(n) AS labels,\n"
        ++ "       rel_count AS actual_count,\n"
        ++ "       \x27" ++ c.id ++ "\x27 AS check_id")

/-- `GQLBackend._relationship_endpoint`. -/
def gqlRelationshipEndpoint (c : CheckData Check) : Except String String := do
  let rel ← match c.relationship with
    | some r => pure r
    | none => .error "AttributeError: NoneType has no attribute type"
  pure ("MATCH (s)-[r:" ++ rel.type ++ "]->(t)\n"
    ++ "WHERE NOT (s:" ++ c.target_label ++ " AND t:" ++ rel.target_label ++ ")\n"
    ++ "RETURN element_id(r) AS rel_id,\n"
    ++ "       type(r) AS rel_type,\n"
    ++ "       labels(s) AS source_labels,\n"
    ++ "       labels(t) AS target_labels,\n"
    ++ "       \x27" ++ c.id ++ "\x27 AS check_id")

/-- `GQLBackend._compile_condition`. -/
def gqlCompileCondition (check : Check) (nodeVar : String) :
    Except String String :=
  let c := check.data
  match c.type with
  | .PROPERTY_EXISTS =>
    pure (nodeVar ++ "." ++ pyInterp c.property ++ " IS NOT NULL")
  | .PROPERTY_TYPE => do
    let expectedType ← match c.expected_type with
      | some et => pure et
      | none => .error "AttributeError: NoneType has no attribute upper"
    let gqlType := gqlTypeCheck (pyInterp c.property) expectedType
    pure (nodeVar ++ "." ++ pyInterp c.property ++ " IS NOT NULL AND NOT ("
      ++ gqlType ++ ")")
  | .PROPERTY_VALUE_IN => do
    let values ← match c.allowed_values with
      | some vs => pure vs
      | none => .error "TypeError: NoneType is not iterable"
    pure (nodeVar ++ "." ++ pyInterp c.property ++ " IN " ++ gqlListLiteral values)
  | .PROPERTY_PATTERN => do
    let pat ← match c.pattern with
      | some p => pure p
      | none => .error "AttributeError: NoneType has no attribute replace"
    pure (nodeVar ++ "." ++ pyInterp c.property ++ " =~ \x27"
      ++ gqlRegexOf pat c.pattern_flags ++ "\x27")
  | .PROPERTY_RANGE =>
    let conds : List String :=
      (match c.min_inclusive with
       | some v => [nodeVar ++ "." ++ pyInterp c.property ++ " >= " ++ toString v]
       | none => [])
      ++ (match c.max_inclusive with
       | some v => [nodeVar ++ "." ++ pyInterp c.property ++ " <= " ++ toString v]
       | none => [])
      ++ (match c.min_exclusive with
       | some v => [nodeVar ++ "." ++ pyInterp c.property ++ " > " ++ toString v]
       | none => [])
      ++ (match c.max_exclusive with
       | some v => [nodeVar ++ "." ++ pyInterp c.property ++ " < " ++ toString v]
       | none => [])
    pure (if conds.isEmpty then "TRUE" else String.intercalate " AND " conds)
  | _ => pure "TRUE"

/-- `GQLBackend._qualified_cardinality`. -/
def gqlQualifiedCardinality (c : CheckData Check) : Except String String := do
  let qf ← match c.qualified_filter with
    | some f => pure f
    | none => .error "AttributeError: NoneType has no attribute type"
  let filterCond ← gqlCompileCondition qf "n"
  let conditions : List String :=
    (match c.qualified_min with
     | some n => ["qcount < " ++ toString n]
     | none => [])
    ++ (match c.qualified_max with
     | some n => ["qcount > " ++ toString n]
     | none => [])
  if conditions.isEmpty then
    pure ("// Check " ++ c.id ++ ": qualified cardinality with no bounds\n"
      ++ "// This check always passes — skipped")
  else
    let whereClause := String.intercalate " OR " conditions
    pure ("MATCH (n:" ++ c.target_label ++ ")\n"
      ++ "WITH n, size([x IN CASE WHEN n." ++ pyInterp c.property
      ++ " IS NOT NULL THEN\n"
      ++ "  CASE WHEN " ++ filterCond ++ " THEN [1] ELSE [] END\n"
      ++ "  ELSE [] END | x]) AS qcount\n"
      ++ "WHERE " ++ whereClause ++ "\n"
      ++ "RETURN element_id(n) AS node_id,\n"
      ++ "       labels(n) AS labels,\n"
      ++ "       qcount AS qualified_count,\n"
      ++ "       \x27" ++ c.id ++ "\x27 AS check_id")

/-- `GQLBackend._logical_not`. -/
def gqlLogicalNot (c : CheckData Check) : Except String String := do
  match c.sub_checks with
  | [] => pure ("// Check " ++ c.id ++ ": sh:not with no inner checks — skipped")
  | inner :: _ => do
    let cond ← gqlCompileCondition inner "n"
    pure ("MATCH (n:" ++ c.target_label ++ ")\n"
      ++ "WHERE " ++ cond ++ "\n"
      ++ gqlReturnTail c.id)

/-- `GQLBackend._logical_and`. -/
def gqlLogicalAnd (c : CheckData Check) : Except String String := do
  match c.sub_checks with
  | [] => pure ("// Check " ++ c.id ++ ": sh:and with no inner checks — skipped")
  | _ => do
    let conditions ← c.sub_checks.mapM fun sc => do
      let cond ← gqlCompileCondition sc "n"
      pure ("NOT (" ++ cond ++ ")")
    let whereClause := String.intercalate " OR " conditions
    pure ("MATCH (n:" ++ c.target_label ++ ")\n"
      ++ "WHERE " ++ whereClause ++ "\n"
      ++ gqlReturnTail c.id)

/-- `GQLBackend._logical_or`. -/
def gqlLogicalOr (c : CheckData Check) : Except String String := do
  match c.sub_checks with
  | [] => pure ("// Check " ++ c.id ++ ": sh:or with no inner checks — skipped")
  | _ => do
    let conditions ← c.sub_checks.mapM fun sc => do
      let cond ← gqlCompileCondition sc "n"
      pure ("NOT (" ++ cond ++ ")")
    let whereClause := String.intercalate " AND " conditions
    pure ("MATCH (n:" ++ c.target_label ++ ")\n"
      ++ "WHERE " ++ whereClause ++ "\n"
      ++ gqlReturnTail c.id)

/-- `GQLBackend._logical_xone`. -/
def gqlLogicalXone (c : CheckData Check) : Except String String := do
  match c.sub_checks with
  | [] => pure ("// Check " ++ c.id ++ ": sh:xone with no inner checks — skipped")
  | _ => do
    let caseParts ← c.sub_checks.mapM fun sc => do
      let cond ← gqlCompileCondition sc "n"
      pure ("CASE WHEN " ++ cond ++ " THEN 1 ELSE 0 END")
    let sumExpr := String.intercalate " + " caseParts
    pure ("MATCH (n:" ++ c.target_label ++ ")\n"
      ++ "WITH n, (" ++ sumExpr ++ ") AS satisfied_count\n"
      ++ "WHERE satisfied_count <> 1\n"
      ++ "RETURN element_id(n) AS node_id,\n"
      ++ "       labels(n) AS labels,\n"
      ++ "       satisfied_count,\n"
      ++ "       \x27" ++ c.id ++ "\x27 AS check_id")

/-- `GQLBackend._unique_lang`. -/
def gqlUniqueLang (c : CheckData Check) : String :=
  "// Check " ++ c.id ++ ": sh:uniqueLang not applicable to LPG\n"
    ++ "// Neo4j properties have no language tags — constraint acknowledged"

/-- `GQLBackend._undeclared_labels`. -/
def gqlUndeclaredLabels (c : CheckData Check) : Except String String := do
  let values ← match c.allowed_values with
    | some vs => pure vs
    | none => .error "TypeError: NoneType is not iterable"
  let labelsStr := gqlListLiteral values
  pure ("CALL db.labels() YIELD label\n"
    ++ "WHERE NOT label IN " ++ labelsStr ++ "\n"
    ++ "WITH label\n"
    ++ "MATCH (n) WHERE label IN labels(n)\n"
    ++ "WITH n, label LIMIT 1\n"
    ++ "RETURN element_id(n) AS node_id,\n"
    ++ "       [label] AS labels,\n"
    ++ "       label AS undeclared_label,\n"
    ++ "       \x27" ++ c.id ++ "\x27 AS check_id")

/-- `GQLBackend._undeclared_relationship_types`. -/
def gqlUndeclaredRelTypes (c : CheckData Check) : Except String String := do
  let rels ← match c.allowed_relationships with
    | some rs => pure rs
    | none => .error "TypeError: NoneType is not iterable"
  let relsStr := gqlListLiteral (rels.map LpgValue.str)
  pure ("CALL db.relationshipTypes() YIELD relationshipType\n"
    ++ "WHERE NOT relationshipType IN " ++ relsStr ++ "\n"
    ++ "WITH relationshipType\n"
    ++ "MATCH ()-[r]->() WHERE type(r) = relationshipType\n"
    ++ "WITH r, relationshipType LIMIT 1\n"
    ++ "RETURN element_id(startNode(r)) AS node_id,\n"
    ++ "       labels(startNode(r)) AS labels,\n"
    ++ "       relationshipType AS undeclared_type,\n"
    ++ "       \x27" ++ c.id ++ "\x27 AS check_id")

/-- `GQLBackend._undeclared_properties`. -/
def gqlUndeclaredProperties (c : CheckData Check) : Except String String := do
  let props ← match c.allowed_properties with
    | some ps => pure ps
    | none => .error "TypeError: NoneType is not iterable"
  let propsStr := gqlListLiteral (props.map LpgValue.str)
  pure ("MATCH (n:" ++ c.target_label ++ ")\n"
    ++ "WITH n, [k IN keys(n) WHERE NOT k IN " ++ propsStr ++ "] AS extra\n"
    ++ "WHERE size(extra) > 0\n"
    ++ "UNWIND extra AS undeclared_key\n"
    ++ "RETURN element_id(n) AS node_id,\n"
    ++ "       labels(n) AS labels,\n"
    ++ "       undeclared_key AS undeclared_property,\n"
    ++ "       \x27" ++ c.id ++ "\x27 AS check_id")

/-- `GQLBackend._empty_shape`. -/
def gqlEmptyShape (c : CheckData Check) : String :=
  "OPTIONAL MATCH (n:" ++ c.target_label ++ ")\n"
    ++ "WITH count(n) AS cnt\n"
    ++ "WHERE cnt = 0\n"
    ++ "RETURN \x27none\x27 AS node_id,\n"
    ++ "       [\x27" ++ c.target_label ++ "\x27] AS labels,\n"
    ++ "       0 AS instance_count,\n"
    ++ "       \x27" ++ c.id ++ "\x27 AS check_id"

/-- The `dispatch` dictionary of `GQLBackend.compile_check`. -/
def gqlDispatch (k : CheckType) :
    Option (CheckData Check → Except String String) :=
  match k with
  | .PROPERTY_EXISTS => some fun c => pure (gqlPropertyExists c)
  | .PROPERTY_TYPE => some gqlPropertyType
  | .PROPERTY_VALUE_IN => some gqlPropertyValueIn
  | .PROPERTY_PATTERN => some gqlPropertyPattern
  | .PROPERTY_STRING_LENGTH => some fun c => pure (gqlPropertyStringLength c)
  | .PROPERTY_RANGE => some fun c => pure (gqlPropertyRange c)
  | .PROPERTY_PAIR => some gqlPropertyPair
  | .RELATIONSHIP_CARDINALITY => some gqlRelationshipCardinality
  | .RELATIONSHIP_ENDPOINT => some gqlRelationshipEndpoint
  | .UNDECLARED_LABELS => some gqlUndeclaredLabels
  | .UNDECLARED_RELATIONSHIP_TYPES => some gqlUndeclaredRelTypes
  | .UNDECLARED_PROPERTIES => some gqlUndeclaredProperties
  | .EMPTY_SHAPE => some fun c => pure (gqlEmptyShape c)
  | .QUALIFIED_CARDINALITY => some gqlQualifiedCardinality
  | .LOGICAL_NOT => some gqlLogicalNot
  | .LOGICAL_AND => some gqlLogicalAnd
  | .LOGICAL_OR => some gqlLogicalOr
  | .LOGICAL_XONE => some gqlLogicalXone
  | .UNIQUE_LANG => some fun c => pure (gqlUniqueLang c)
  | _ => none

/-- `GQLBackend.compile_check`. -/
def gqlCompileCheck (check : Check) : Except String String :=
  match gqlDispatch check.data.type with
  | some handler => handler check.data
  | none =>
    .error ("Check type " ++ check.data.type.value
      ++ " not implemented for GQL backend")

/-! ## Plan runner (`graphlint/runner.py`)

The Neo4j driver/session is the out-of-scope external collaborator; it
is modelled as a record of response functions: per-label instance
counts and per-(label, property) non-null counts (the two pre-flight
query categories), and a generic query runner whose failure case models
a raised driver exception.  `datetime.now()` is modelled as an explicit
`now` argument. -/

/-- One row returned by the driver for a violation query, as read by
`execute_plan` (`record.get` lookups; columns other than the id/label
ones are the `extra` mapping). -/
structure Record where
  node_id : Option String := none
  rel_id : Option String := none
  labels : Option (List String) := none
  source_labels : Option (List String) := none
  extra : List (String × String) := []

/-- `str(record.get("node_id", record.get("rel_id", "unknown")))`. -/
def recordNodeId (r : Record) : String :=
  match r.node_id with
  | some v => v
  | none =>
    match r.rel_id with
    | some v => v
    | none => "unknown"

/-- `record.get("labels", record.get("source_labels", []))` coerced to a
list (falsy → `[]`). -/
def recordLabels (r : Record) : List String :=
  let raw :=
    match r.labels with
    | some v => some v
    | none => r.source_labels
  match raw with
  | some v => if v.isEmpty then [] else v
  | none => []

/-- `ViolatingNode` dataclass. -/
structure ViolatingNode where
  node_id : String
  labels : List String
  extra : List (String × String) := []
deriving DecidableEq, Repr

/-- `CheckResult` dataclass (`violation_count` is the derived property
`len(violating_nodes)`). -/
structure CheckResult where
  check_id : String
  check_type : String
  severity : String
  message : String
  shape : Option String
  target_label : String
  passed : Bool
  vacuous : Bool := false
  violating_nodes : List ViolatingNode := []
  query : String := ""
deriving DecidableEq, Repr

def CheckResult.violation_count (r : CheckResult) : Nat :=
  r.violating_nodes.length

/-- The `summary` dictionary of a report. -/
structure Summary where
  violations : Nat
  warnings : Nat
  info : Nat
  checks_passed : Nat
  checks_vacuous : Nat
  checks_total : Nat
deriving DecidableEq, Repr

/-- `ValidationReport` dataclass. -/
structure ValidationReport where
  conforms : Bool
  generated_at : String
  schema_source : String
  backend : String
  target : Option String
  summary : Summary
  results : List CheckResult
deriving DecidableEq, Repr

/-- A query backend as consumed by the runner: a name and the
`compile_check` contract (errors model raised exceptions). -/
structure Backend where
  name : String
  compile_check : Check → Except String String

/-- `CypherBackend` instance. -/
def cypherBackend : Backend :=
  { name := "cypher", compile_check := cypherCompileCheck }

/-- `GQLBackend` instance. -/
def gqlBackend : Backend :=
  { name := "gql", compile_check := gqlCompileCheck }

/-- The external database session: per-label count, per-(label,
property) non-null count, and violation-query execution. -/
structure Session where
  labelCount : String → Int
  propCount : String → String → Int
  run : String → Except String (List Record)

/-- `compile_plan` (an exception from `compile_check` propagates). -/
def compile_plan (plan : ValidationPlan) (backend : Backend) :
    Except String (List (Check × String)) :=
  plan.checks.mapM fun check => do
    let query ← backend.compile_check check
    pure (check, query)

/-- `_PROPERTY_VACUOUS_TYPES`. -/
def propertyVacuousTypes : List CheckType :=
  [ .PROPERTY_TYPE, .PROPERTY_VALUE_IN, .PROPERTY_PATTERN
  , .PROPERTY_STRING_LENGTH, .PROPERTY_RANGE, .PROPERTY_PAIR ]

/-- The declared-label set `{plan.mapping.label_for(iri) for iri in
plan.shapes}` (only membership is consumed). -/
def declaredLabels (plan : ValidationPlan) : List String :=
  plan.shapes.map plan.mapping.label_for

/-- The pre-flight `empty_labels` set. -/
def emptyLabelsOf (plan : ValidationPlan) (sess : Session) : List String :=
  (declaredLabels plan).filter fun label => sess.labelCount label == 0

/-- The `label_props` set of (label, property) pairs needing
property-level vacancy checks (only membership is consumed). -/
def labelPropsOf (compiled : List (Check × String)) : List (String × String) :=
  compiled.filterMap fun cq =>
    if propertyVacuousTypes.contains cq.1.data.type
        && strOptTruthy cq.1.data.property then
      some (cq.1.data.target_label, cq.1.data.property.getD "")
    else none

/-- The pre-flight `empty_props` set. -/
def emptyPropsOf (compiled : List (Check × String)) (plan : ValidationPlan)
    (sess : Session) : List (String × String) :=
  (labelPropsOf compiled).filter fun lp =>
    !(emptyLabelsOf plan sess).contains lp.1
      && sess.propCount lp.1 lp.2 == 0

/-- The `is_vacuous` condition of the execution loop. -/
def checkIsVacuous (emptyLabels : List String)
    (emptyProps : List (String × String)) (c : CheckData Check) : Bool :=
  (emptyLabels.contains c.target_label && c.type != .EMPTY_SHAPE)
    || (propertyVacuousTypes.contains c.type
        && strOptTruthy c.property
        && emptyProps.contains (c.target_label, c.property.getD ""))

/-- The loop state of `execute_plan`: accumulated results and the five
counters. -/
structure RunState where
  results : List CheckResult := []
  violations : Nat := 0
  warnings : Nat := 0
  info : Nat := 0
  passed : Nat := 0
  vacuous : Nat := 0
deriving DecidableEq, Repr

/-- One iteration of the `for check, query in compiled` loop of
`execute_plan`. -/
def processCheck (sess : Session) (emptyLabels : List String)
    (emptyProps : List (String × String)) (st : RunState)
    (cq : Check × String) : RunState :=
  let c := cq.1.data
  let query := cq.2
  let isVac := checkIsVacuous emptyLabels emptyProps c
  if pyStartswith (pyStrip query) "//" then
    { st with
      vacuous := st.vacuous + (if isVac then 1 else 0)
      passed := st.passed + (if isVac then 0 else 1)
      results := st.results ++
        [{ check_id := c.id
         , check_type := c.type.value
         , severity := c.severity.value
         , message := c.message
         , shape := c.shape
         , target_label := c.target_label
         , passed := !isVac
         , vacuous := isVac
         , query := query }] }
  else if isVac then
    { st with
      vacuous := st.vacuous + 1
      results := st.results ++
        [{ check_id := c.id
         , check_type := c.type.value
         , severity := c.severity.value
         , message := c.message
         , shape := c.shape
         , target_label := c.target_label
         , passed := false
         , vacuous := true
         , query := query }] }
  else
    match sess.run query with
    | .error e =>
      { st with
        violations := st.violations + 1
        results := st.results ++
          [{ check_id := c.id
           , check_type := c.type.value
           , severity := c.severity.value
           , message := "Query execution failed: " ++ e
           , shape := c.shape
           , target_label := c.target_label
           , passed := false
           , query := query }] }
    | .ok records =>
      let violatingNodes : List ViolatingNode := records.map fun r =>
        { node_id := recordNodeId r, labels := recordLabels r, extra := r.extra }
      let passed := violatingNodes.length == 0
      { st with
        passed := st.passed + (if passed then 1 else 0)
        violations := st.violations +
          (if !passed && c.severity == .VIOLATION then 1 else 0)
        warnings := st.warnings +
          (if !passed && c.severity == .WARNING then 1 else 0)
        info := st.info +
          (if !passed && c.severity != .VIOLATION && c.severity != .WARNING
           then 1 else 0)
        results := st.results ++
          [{ check_id := c.id
           , check_type := c.type.value
           , severity := c.severity.value
           , message := c.message
           , shape := c.shape
           , target_label := c.target_label
           , passed := passed
           , violating_nodes := violatingNodes
           , query := query }] }

/-- `execute_plan`. -/
def execute_plan (plan : ValidationPlan) (backend : Backend) (sess : Session)
    (now : String) (targetUri : Option String := none) :
    Except String ValidationReport := do
  let compiled ← compile_plan plan backend
  let emptyLabels := emptyLabelsOf plan sess
  let emptyProps := emptyPropsOf compiled plan sess
  let st := compiled.foldl (processCheck sess emptyLabels emptyProps) {}
  let conforms := st.violations == 0
  pure
    { conforms := conforms
    , generated_at := now
    , schema_source := plan.schema_source
    , backend := backend.name
    , target := targetUri
    , summary :=
      { violations := st.violations
      , warnings := st.warnings
      , info := st.info
      , checks_passed := st.passed
      , checks_vacuous := st.vacuous
      , checks_total := compiled.length }
    , results := st.results }

/-! ## Structural lemmas about the execution loop -/

/-- The contribution of a single check to the loop state, starting from
the empty state. -/
def stepState (sess : Session) (emptyLabels : List String)
    (emptyProps : List (String × String)) (cq : Check × String) : RunState :=
  processCheck sess emptyLabels emptyProps {} cq

/-- Pointwise combination of two loop states. -/
def joinState (a b : RunState) : RunState :=
  { results := a.results ++ b.results
  , violations := a.violations + b.violations
  , warnings := a.warnings + b.warnings
  , info := a.info + b.info
  , passed := a.passed + b.passed
  , vacuous := a.vacuous + b.vacuous }

theorem joinState_empty_left (b : RunState) : joinState {} b = b := by
  cases b; simp [joinState]

theorem joinState_empty_right (a : RunState) : joinState a {} = a := by
  cases a; simp [joinState]

theorem joinState_assoc (a b c : RunState) :
    joinState (joinState a b) c = joinState a (joinState b c) := by
  cases a; cases b; cases c
  simp [joinState, List.append_assoc, Nat.add_assoc]

theorem processCheck_shift (sess : Session) (eL : List String)
    (eP : List (String × String)) (st : RunState) (cq : Check × String) :
    processCheck sess eL eP st cq = joinState st (stepState sess eL eP cq) := by
  unfold stepState processCheck
  by_cases h1 : pyStartswith (pyStrip cq.2) "//"
  · simp [h1, joinState]
  · by_cases h2 : checkIsVacuous eL eP cq.1.data
    · simp [h1, h2, joinState]
    · cases hrun : sess.run cq.2 with
      | error e => simp [h1, h2, hrun, joinState]
      | ok records => simp [h1, h2, hrun, joinState]

theorem foldl_processCheck_shift (sess : Session) (eL : List String)
    (eP : List (String × String)) (l : List (Check × String)) (st : RunState) :
    l.foldl (processCheck sess eL eP) st
      = joinState st (l.foldl (processCheck sess eL eP) {}) := by
  induction l generalizing st with
  | nil => simp [joinState_empty_right]
  | cons hd tl ih =>
    calc (hd :: tl).foldl (processCheck sess eL eP) st
        = tl.foldl (processCheck sess eL eP) (processCheck sess eL eP st hd) := by
          simp [List.foldl_cons]
      _ = joinState (processCheck sess eL eP st hd)
            (tl.foldl (processCheck sess eL eP) {}) := ih _
      _ = joinState (joinState st (stepState sess eL eP hd))
            (tl.foldl (processCheck sess eL eP) {}) := by
          rw [processCheck_shift]
      _ = joinState st (joinState (stepState sess eL eP hd)
            (tl.foldl (processCheck sess eL eP) {})) := joinState_assoc ..
      _ = joinState st (tl.foldl (processCheck sess eL eP)
            (stepState sess eL eP hd)) := by
          rw [ih (stepState sess eL eP hd)]
      _ = joinState st ((hd :: tl).foldl (processCheck sess eL eP) {}) := by
          rw [List.foldl_cons, processCheck_shift sess eL eP {} hd,
            joinState_empty_left]

/-- The whole loop is the pointwise sum of the per-check contributions. -/
theorem foldl_processCheck_eq (sess : Session) (eL : List String)
    (eP : List (String × String)) (l : List (Check × String)) :
    l.foldl (processCheck sess eL eP) {}
      = { results := l.flatMap fun cq => (stepState sess eL eP cq).results
        , violations := (l.map fun cq => (stepState sess eL eP cq).violations).sum
        , warnings := (l.map fun cq => (stepState sess eL eP cq).warnings).sum
        , info := (l.map fun cq => (stepState sess eL eP cq).info).sum
        , passed := (l.map fun cq => (stepState sess eL eP cq).passed).sum
        , vacuous := (l.map fun cq => (stepState sess eL eP cq).vacuous).sum } := by
  induction l with
  | nil => rfl
  | cons hd tl ih =>
    rw [List.foldl_cons, processCheck_shift sess eL eP {} hd, joinState_empty_left,
      foldl_processCheck_shift, ih]
    simp [joinState, List.flatMap_cons, List.sum_cons]

/-- The single `CheckResult` a check contributes. -/
def resultOf (sess : Session) (emptyLabels : List String)
    (emptyProps : List (String × String)) (cq : Check × String) : CheckResult :=
  let c := cq.1.data
  let query := cq.2
  let isVac := checkIsVacuous emptyLabels emptyProps c
  if pyStartswith (pyStrip query) "//" then
    { check_id := c.id
    , check_type := c.type.value
    , severity := c.severity.value
    , message := c.message
    , shape := c.shape
    , target_label := c.target_label
    , passed := !isVac
    , vacuous := isVac
    , query := query }
  else if isVac then
    { check_id := c.id
    , check_type := c.type.value
    , severity := c.severity.value
    , message := c.message
    , shape := c.shape
    , target_label := c.target_label
    , passed := false
    , vacuous := true
    , query := query }
  else
    match sess.run query with
    | .error e =>
      { check_id := c.id
      , check_type := c.type.value
      , severity := c.severity.value
      , message := "Query execution failed: " ++ e
      , shape := c.shape
      , target_label := c.target_label
      , passed := false
      , query := query }
    | .ok records =>
      let violatingNodes : List ViolatingNode := records.map fun r =>
        { node_id := recordNodeId r, labels := recordLabels r, extra := r.extra }
      { check_id := c.id
      , check_type := c.type.value
      , severity := c.severity.value
      , message := c.message
      , shape := c.shape
      , target_label := c.target_label
      , passed := violatingNodes.length == 0
      , violating_nodes := violatingNodes
      , query := query }

theorem stepState_results (sess : Session) (eL : List String)
    (eP : List (String × String)) (cq : Check × String) :
    (stepState sess eL eP cq).results = [resultOf sess eL eP cq] := by
  unfold stepState processCheck resultOf
  by_cases h1 : pyStartswith (pyStrip cq.2) "//"
  · simp [h1]
  · by_cases h2 : checkIsVacuous eL eP cq.1.data
    · simp [h1, h2]
    · cases hrun : sess.run cq.2 with
      | error e => simp [h1, h2, hrun]
      | ok records => simp [h1, h2, hrun]

/-- The report `execute_plan` assembles from a successfully compiled
check list. -/
def reportOf (plan : ValidationPlan) (backend : Backend) (sess : Session)
    (now : String) (targetUri : Option String)
    (compiled : List (Check × String)) : ValidationReport :=
  let emptyLabels := emptyLabelsOf plan sess
  let emptyProps := emptyPropsOf compiled plan sess
  let st := compiled.foldl (processCheck sess emptyLabels emptyProps) {}
  { conforms := st.violations == 0
  , generated_at := now
  , schema_source := plan.schema_source
  , backend := backend.name
  , target := targetUri
  , summary :=
    { violations := st.violations
    , warnings := st.warnings
    , info := st.info
    , checks_passed := st.passed
    , checks_vacuous := st.vacuous
    , checks_total := compiled.length }
  , results := st.results }

theorem execute_plan_eq_of_compiled {plan : ValidationPlan} {backend : Backend}
    {sess : Session} {now : String} {tgt : Option String}
    {compiled : List (Check × String)}
    (h : compile_plan plan backend = .ok compiled) :
    execute_plan plan backend sess now tgt
      = .ok (reportOf plan backend sess now tgt compiled) := by
  unfold execute_plan reportOf
  rw [h]
  rfl

theorem execute_plan_ok_elim {plan : ValidationPlan} {backend : Backend}
    {sess : Session} {now : String} {tgt : Option String}
    {report : ValidationReport}
    (h : execute_plan plan backend sess now tgt = .ok report) :
    ∃ compiled, compile_plan plan backend = .ok compiled
      ∧ report = reportOf plan backend sess now tgt compiled := by
  unfold execute_plan at h
  cases hc : compile_plan plan backend with
  | error e => rw [hc] at h; exact absurd h (by simp [Except.bind])
  | ok compiled =>
    rw [hc] at h
    refine ⟨compiled, rfl, ?_⟩
    have : Except.ok (ε := String) (reportOf plan backend sess now tgt compiled)
        = .ok report := by
      rw [← h]; rfl
    exact (Except.ok.injEq .. ▸ congrArg id this).symm ▸ by
      cases this; rfl

/-- The violating-node list built from returned records. -/
def nodesOf (records : List Record) : List ViolatingNode :=
  records.map fun r =>
    { node_id := recordNodeId r, labels := recordLabels r, extra := r.extra }

theorem resultOf_noop {cq : Check × String} (sess : Session)
    (eL : List String) (eP : List (String × String))
    (h1 : pyStartswith (pyStrip cq.2) "//" = true) :
    resultOf sess eL eP cq =
      { check_id := cq.1.data.id
      , check_type := cq.1.data.type.value
      , severity := cq.1.data.severity.value
      , message := cq.1.data.message
      , shape := cq.1.data.shape
      , target_label := cq.1.data.target_label
      , passed := !(checkIsVacuous eL eP cq.1.data)
      , vacuous := checkIsVacuous eL eP cq.1.data
      , query := cq.2 } := by
  unfold resultOf
  rw [if_pos h1]

theorem resultOf_vac {cq : Check × String} (sess : Session)
    (eL : List String) (eP : List (String × String))
    (h1 : ¬pyStartswith (pyStrip cq.2) "//" = true)
    (h2 : checkIsVacuous eL eP cq.1.data = true) :
    resultOf sess eL eP cq =
      { check_id := cq.1.data.id
      , check_type := cq.1.data.type.value
      , severity := cq.1.data.severity.value
      , message := cq.1.data.message
      , shape := cq.1.data.shape
      , target_label := cq.1.data.target_label
      , passed := false
      , vacuous := true
      , query := cq.2 } := by
  unfold resultOf
  rw [if_neg h1, if_pos h2]

theorem resultOf_runError {cq : Check × String} {e : String} (sess : Session)
    (eL : List String) (eP : List (String × String))
    (h1 : ¬pyStartswith (pyStrip cq.2) "//" = true)
    (h2 : ¬checkIsVacuous eL eP cq.1.data = true)
    (hrun : sess.run cq.2 = .error e) :
    resultOf sess eL eP cq =
      { check_id := cq.1.data.id
      , check_type := cq.1.data.type.value
      , severity := cq.1.data.severity.value
      , message := "Query execution failed: " ++ e
      , shape := cq.1.data.shape
      , target_label := cq.1.data.target_label
      , passed := false
      , query := cq.2 } := by
  unfold resultOf
  rw [if_neg h1, if_neg h2, hrun]

theorem resultOf_runOk {cq : Check × String} {records : List Record}
    (sess : Session) (eL : List String) (eP : List (String × String))
    (h1 : ¬pyStartswith (pyStrip cq.2) "//" = true)
    (h2 : ¬checkIsVacuous eL eP cq.1.data = true)
    (hrun : sess.run cq.2 = .ok records) :
    resultOf sess eL eP cq =
      { check_id := cq.1.data.id
      , check_type := cq.1.data.type.value
      , severity := cq.1.data.severity.value
      , message := cq.1.data.message
      , shape := cq.1.data.shape
      , target_label := cq.1.data.target_label
      , passed := (nodesOf records).length == 0
      , violating_nodes := nodesOf records
      , query := cq.2 } := by
  unfold resultOf nodesOf
  rw [if_neg h1, if_neg h2, hrun]

theorem stepState_noop {cq : Check × String} (sess : Session)
    (eL : List String) (eP : List (String × String))
    (h1 : pyStartswith (pyStrip cq.2) "//" = true) :
    stepState sess eL eP cq =
      { results := [resultOf sess eL eP cq]
      , vacuous := if checkIsVacuous eL eP cq.1.data then 1 else 0
      , passed := if checkIsVacuous eL eP cq.1.data then 0 else 1 } := by
  unfold stepState processCheck
  rw [resultOf_noop sess eL eP h1, if_pos h1]
  by_cases h2 : checkIsVacuous eL eP cq.1.data <;> simp [h2]

theorem stepState_vac {cq : Check × String} (sess : Session)
    (eL : List String) (eP : List (String × String))
    (h1 : ¬pyStartswith (pyStrip cq.2) "//" = true)
    (h2 : checkIsVacuous eL eP cq.1.data = true) :
    stepState sess eL eP cq =
      { results := [resultOf sess eL eP cq]
      , vacuous := 1 } := by
  unfold stepState processCheck
  rw [resultOf_vac sess eL eP h1 h2, if_neg h1, if_pos h2]
  simp

theorem stepState_runError {cq : Check × String} {e : String} (sess : Session)
    (eL : List String) (eP : List (String × String))
    (h1 : ¬pyStartswith (pyStrip cq.2) "//" = true)
    (h2 : ¬checkIsVacuous eL eP cq.1.data = true)
    (hrun : sess.run cq.2 = .error e) :
    stepState sess eL eP cq =
      { results := [resultOf sess eL eP cq]
      , violations := 1 } := by
  unfold stepState processCheck
  rw [resultOf_runError sess eL eP h1 h2 hrun, if_neg h1, if_neg h2, hrun]
  simp

theorem stepState_runOk {cq : Check × String} {records : List Record}
    (sess : Session) (eL : List String) (eP : List (String × String))
    (h1 : ¬pyStartswith (pyStrip cq.2) "//" = true)
    (h2 : ¬checkIsVacuous eL eP cq.1.data = true)
    (hrun : sess.run cq.2 = .ok records) :
    stepState sess eL eP cq =
      { results := [resultOf sess eL eP cq]
      , passed := if (nodesOf records).length == 0 then 1 else 0
      , violations :=
          if !((nodesOf records).length == 0)
              && cq.1.data.severity == .VIOLATION then 1 else 0
      , warnings :=
          if !((nodesOf records).length == 0)
              && cq.1.data.severity == .WARNING then 1 else 0
      , info :=
          if !((nodesOf records).length == 0)
              && cq.1.data.severity != .VIOLATION
              && cq.1.data.severity != .WARNING then 1 else 0 } := by
  unfold stepState processCheck
  rw [resultOf_runOk sess eL eP h1 h2 hrun, if_neg h1, if_neg h2, hrun]
  simp [nodesOf]

/-- Per-check pass counter versus the result's `passed` flag. -/
theorem stepState_passed_eq (sess : Session) (eL : List String)
    (eP : List (String × String)) (cq : Check × String) :
    (stepState sess eL eP cq).passed
      = (if (resultOf sess eL eP cq).passed then 1 else 0) := by
  by_cases h1 : pyStartswith (pyStrip cq.2) "//"
  · rw [stepState_noop sess eL eP h1, resultOf_noop sess eL eP h1]
    by_cases h2 : checkIsVacuous eL eP cq.1.data <;> simp [h2]
  · by_cases h2 : checkIsVacuous eL eP cq.1.data
    · rw [stepState_vac sess eL eP h1 h2, resultOf_vac sess eL eP h1 h2]
      simp
    · cases hrun : sess.run cq.2 with
      | error e =>
        rw [stepState_runError sess eL eP h1 h2 hrun,
          resultOf_runError sess eL eP h1 h2 hrun]
        simp
      | ok records =>
        rw [stepState_runOk sess eL eP h1 h2 hrun,
          resultOf_runOk sess eL eP h1 h2 hrun]

/-- Per-check vacuous counter versus the result's `vacuous` flag. -/
theorem stepState_vacuous_eq (sess : Session) (eL : List String)
    (eP : List (String × String)) (cq : Check × String) :
    (stepState sess eL eP cq).vacuous
      = (if (resultOf sess eL eP cq).vacuous then 1 else 0) := by
  by_cases h1 : pyStartswith (pyStrip cq.2) "//"
  · rw [stepState_noop sess eL eP h1, resultOf_noop sess eL eP h1]
  · by_cases h2 : checkIsVacuous eL eP cq.1.data
    · rw [stepState_vac sess eL eP h1 h2, resultOf_vac sess eL eP h1 h2]
      simp
    · cases hrun : sess.run cq.2 with
      | error e =>
        rw [stepState_runError sess eL eP h1 h2 hrun,
          resultOf_runError sess eL eP h1 h2 hrun]
        simp
      | ok records =>
        rw [stepState_runOk sess eL eP h1 h2 hrun,
          resultOf_runOk sess eL eP h1 h2 hrun]
        simp

/-- A result is never simultaneously passed and vacuous. -/
theorem resultOf_not_passed_and_vacuous (sess : Session) (eL : List String)
    (eP : List (String × String)) (cq : Check × String) :
    ¬((resultOf sess eL eP cq).passed = true
      ∧ (resultOf sess eL eP cq).vacuous = true) := by
  by_cases h1 : pyStartswith (pyStrip cq.2) "//"
  · rw [resultOf_noop sess eL eP h1]
    by_cases h2 : checkIsVacuous eL eP cq.1.data <;> simp [h2]
  · by_cases h2 : checkIsVacuous eL eP cq.1.data
    · rw [resultOf_vac sess eL eP h1 h2]; simp
    · cases hrun : sess.run cq.2 with
      | error e => rw [resultOf_runError sess eL eP h1 h2 hrun]; simp
      | ok records => rw [resultOf_runOk sess eL eP h1 h2 hrun]; simp

/-- A vacuous check contributes one vacuous tick and nothing else. -/
theorem stepState_of_vacuous {eL : List String} {eP : List (String × String)}
    {cq : Check × String} (sess : Session)
    (h : checkIsVacuous eL eP cq.1.data = true) :
    (stepState sess eL eP cq).violations = 0
      ∧ (stepState sess eL eP cq).warnings = 0
      ∧ (stepState sess eL eP cq).info = 0
      ∧ (stepState sess eL eP cq).passed = 0
      ∧ (stepState sess eL eP cq).vacuous = 1 := by
  by_cases h1 : pyStartswith (pyStrip cq.2) "//"
  · rw [stepState_noop sess eL eP h1]; simp [h]
  · rw [stepState_vac sess eL eP h1 h]; simp

/-- A vacuous check's result is marked vacuous and not passed. -/
theorem resultOf_of_vacuous {eL : List String} {eP : List (String × String)}
    {cq : Check × String} (sess : Session)
    (h : checkIsVacuous eL eP cq.1.data = true) :
    (resultOf sess eL eP cq).vacuous = true
      ∧ (resultOf sess eL eP cq).passed = false := by
  by_cases h1 : pyStartswith (pyStrip cq.2) "//"
  · rw [resultOf_noop sess eL eP h1]; simp [h]
  · rw [resultOf_vac sess eL eP h1 h]; simp

/-- Sum of indicator values equals a `countP`. -/
theorem sum_ite_eq_countP {α : Type} (l : List α) (p : α → Bool) :
    (l.map fun x => if p x then 1 else 0).sum = l.countP p := by
  induction l with
  | nil => rfl
  | cons hd tl ih =>
    by_cases h : p hd <;> simp [List.countP_cons, h, ih, Nat.add_comm]

/-- Three-way partition of a list's length by two mutually exclusive
Boolean attributes. -/
theorem length_eq_countP_partition {α : Type} (l : List α) (p q : α → Bool)
    (h : ∀ x ∈ l, ¬(p x = true ∧ q x = true)) :
    l.length = l.countP p + l.countP q
      + l.countP (fun x => !(p x) && !(q x)) := by
  induction l with
  | nil => rfl
  | cons hd tl ih =>
    have hhd := h hd (by simp)
    have htl : ∀ x ∈ tl, ¬(p x = true ∧ q x = true) :=
      fun x hx => h x (List.mem_cons_of_mem _ hx)
    by_cases hp : p hd = true
    · have hq : q hd = false := by
        cases hqv : q hd with
        | false => rfl
        | true => exact absurd ⟨hp, hqv⟩ hhd
      simp [List.countP_cons, hp, hq, ih htl]
      omega
    · have hp' : p hd = false := by simpa using hp
      by_cases hq : q hd = true
      · simp [List.countP_cons, hp', hq, ih htl]
        omega
      · have hq' : q hd = false := by simpa using hq
        simp [List.countP_cons, hp', hq', ih htl]
        omega

/-- Removing an element on which `f` vanishes does not change the sum
of `f` over the list. -/
theorem sum_map_eraseIdx_of_zero {α : Type} (f : α → Nat) :
    ∀ (l : List α) (i : Nat) (x : α), l[i]? = some x → f x = 0 →
      (l.map f).sum = ((l.eraseIdx i).map f).sum := by
  intro l
  induction l with
  | nil => intro i x h _; simp at h
  | cons hd tl ih =>
    intro i x h hz
    cases i with
    | zero =>
      simp at h
      subst h
      simp [hz]
    | succ j =>
      simp at h
      have := ih j x h hz
      simp [List.eraseIdx_cons_succ, this]

theorem flatMap_singleton_eq_map {α β : Type} (l : List α) (f : α → β) :
    (l.flatMap fun x => [f x]) = l.map f := by
  induction l with
  | nil => rfl
  | cons hd tl ih => simp [ih]

theorem reportOf_results (plan : ValidationPlan) (backend : Backend)
    (sess : Session) (now : String) (tgt : Option String)
    (compiled : List (Check × String)) :
    (reportOf plan backend sess now tgt compiled).results
      = compiled.map (resultOf sess (emptyLabelsOf plan sess)
          (emptyPropsOf compiled plan sess)) := by
  unfold reportOf
  dsimp only
  rw [foldl_processCheck_eq]
  simp only [stepState_results]
  exact flatMap_singleton_eq_map ..

theorem reportOf_violations (plan : ValidationPlan) (backend : Backend)
    (sess : Session) (now : String) (tgt : Option String)
    (compiled : List (Check × String)) :
    (reportOf plan backend sess now tgt compiled).summary.violations
      = (compiled.map fun cq => (stepState sess (emptyLabelsOf plan sess)
          (emptyPropsOf compiled plan sess) cq).violations).sum := by
  unfold reportOf
  dsimp only
  rw [foldl_processCheck_eq]

theorem reportOf_warnings (plan : ValidationPlan) (backend : Backend)
    (sess : Session) (now : String) (tgt : Option String)
    (compiled : List (Check × String)) :
    (reportOf plan backend sess now tgt compiled).summary.warnings
      = (compiled.map fun cq => (stepState sess (emptyLabelsOf plan sess)
          (emptyPropsOf compiled plan sess) cq).warnings).sum := by
  unfold reportOf
  dsimp only
  rw [foldl_processCheck_eq]

theorem reportOf_info (plan : ValidationPlan) (backend : Backend)
    (sess : Session) (now : String) (tgt : Option String)
    (compiled : List (Check × String)) :
    (reportOf plan backend sess now tgt compiled).summary.info
      = (compiled.map fun cq => (stepState sess (emptyLabelsOf plan sess)
          (emptyPropsOf compiled plan sess) cq).info).sum := by
  unfold reportOf
  dsimp only
  rw [foldl_processCheck_eq]

theorem reportOf_checks_passed (plan : ValidationPlan) (backend : Backend)
    (sess : Session) (now : String) (tgt : Option String)
    (compiled : List (Check × String)) :
    (reportOf plan backend sess now tgt compiled).summary.checks_passed
      = (reportOf plan backend sess now tgt compiled).results.countP
          (·.passed) := by
  unfold reportOf
  dsimp only
  rw [foldl_processCheck_eq]
  simp only [stepState_passed_eq, stepState_results]
  rw [flatMap_singleton_eq_map, List.countP_map]
  exact sum_ite_eq_countP ..

theorem reportOf_checks_vacuous (plan : ValidationPlan) (backend : Backend)
    (sess : Session) (now : String) (tgt : Option String)
    (compiled : List (Check × String)) :
    (reportOf plan backend sess now tgt compiled).summary.checks_vacuous
      = (reportOf plan backend sess now tgt compiled).results.countP
          (·.vacuous) := by
  unfold reportOf
  dsimp only
  rw [foldl_processCheck_eq]
  simp only [stepState_vacuous_eq, stepState_results]
  rw [flatMap_singleton_eq_map, List.countP_map]
  exact sum_ite_eq_countP ..

theorem reportOf_checks_total (plan : ValidationPlan) (backend : Backend)
    (sess : Session) (now : String) (tgt : Option String)
    (compiled : List (Check × String)) :
    (reportOf plan backend sess now tgt compiled).summary.checks_total
      = compiled.length := rfl

theorem reportOf_conforms (plan : ValidationPlan) (backend : Backend)
    (sess : Session) (now : String) (tgt : Option String)
    (compiled : List (Check × String)) :
    (reportOf plan backend sess now tgt compiled).conforms
      = ((compiled.map fun cq => (stepState sess (emptyLabelsOf plan sess)
          (emptyPropsOf compiled plan sess) cq).violations).sum == 0) := by
  unfold reportOf
  dsimp only
  rw [foldl_processCheck_eq]

/-! ## Claim C10 — report structure invariant -/

/-- C10: every `ValidationReport` returned by `execute_plan` contains
exactly one `CheckResult` per compiled check, in plan order (the result
list is the per-check map over the compiled list); `checks_total`
equals the number of results; the summary counts partition the checks
(`checks_total = checks_passed + checks_vacuous + #(failed non-vacuous)`,
with `checks_passed`/`checks_vacuous` counting exactly the results with
the corresponding flag); and no result is simultaneously passed and
vacuous. -/
theorem C10_report_structure (plan : ValidationPlan) (backend : Backend)
    (sess : Session) (now : String) (tgt : Option String)
    (report : ValidationReport) (compiled : List (Check × String))
    (hrun : execute_plan plan backend sess now tgt = .ok report)
    (hcomp : compile_plan plan backend = .ok compiled) :
    report.results = compiled.map (resultOf sess (emptyLabelsOf plan sess)
        (emptyPropsOf compiled plan sess))
    ∧ report.summary.checks_total = report.results.length
    ∧ report.summary.checks_passed = report.results.countP (·.passed)
    ∧ report.summary.checks_vacuous = report.results.countP (·.vacuous)
    ∧ report.summary.checks_total
        = report.summary.checks_passed + report.summary.checks_vacuous
          + report.results.countP (fun r => !r.passed && !r.vacuous)
    ∧ ∀ r ∈ report.results, ¬(r.passed = true ∧ r.vacuous = true) := by
  obtain ⟨c2, hc2, hrep⟩ := execute_plan_ok_elim hrun
  rw [hcomp] at hc2
  cases hc2
  subst hrep
  have hres := reportOf_results plan backend sess now tgt compiled
  have hexcl : ∀ r ∈ (reportOf plan backend sess now tgt compiled).results,
      ¬(r.passed = true ∧ r.vacuous = true) := by
    intro r hr
    rw [hres] at hr
    obtain ⟨cq, _, hcq⟩ := List.mem_map.mp hr
    exact hcq ▸ resultOf_not_passed_and_vacuous sess _ _ cq
  refine ⟨hres, ?_, reportOf_checks_passed .., reportOf_checks_vacuous .., ?_, hexcl⟩
  · rw [reportOf_checks_total, hres, List.length_map]
  · have htot : (reportOf plan backend sess now tgt compiled).summary.checks_total
        = (reportOf plan backend sess now tgt compiled).results.length := by
      rw [reportOf_checks_total, hres, List.length_map]
    rw [htot, reportOf_checks_passed, reportOf_checks_vacuous]
    simpa using length_eq_countP_partition
      (reportOf plan backend sess now tgt compiled).results
      (·.passed) (·.vacuous) hexcl

/-- Witness for C10 at a concrete one-check plan and session. -/
def w10Check : Check := Check.mk
  { id := "person-name-exists"
  , type := .PROPERTY_EXISTS
  , shape := some "http://example.org/PersonShape"
  , target_label := "Person"
  , severity := .VIOLATION
  , message := "Person node missing required \x27name\x27 property"
  , property := some "name" }

def w10Plan : ValidationPlan :=
  { schema_source := "<string>"
  , checks := [w10Check]
  , shapes := ["http://example.org/Person"]
  , mapping := {} }

def w10Session : Session :=
  { labelCount := fun _ => 1
  , propCount := fun _ _ => 1
  , run := fun _ => .ok [] }

def w10Compiled : List (Check × String) :=
  [(w10Check, cypherPropertyExists w10Check.data)]

def w10Report : ValidationReport :=
  reportOf w10Plan cypherBackend w10Session "t" none w10Compiled

theorem C10_report_structure_witness :
    execute_plan w10Plan cypherBackend w10Session "t" none = Except.ok w10Report
    ∧ w10Report.summary.checks_total = w10Report.results.length :=
  ⟨@execute_plan_eq_of_compiled w10Plan cypherBackend w10Session "t" none w10Compiled rfl,
   (C10_report_structure w10Plan cypherBackend w10Session "t" none w10Report
      w10Compiled (execute_plan_eq_of_compiled rfl) rfl).2.1⟩

/-! ## Claim C2 — conformance versus violation-severity failures

The source increments `violations_total` on a query-execution error
regardless of the check's severity (`runner.py`, the `except` branch),
so a failed warning/info check caused by an execution error does flip
`conforms` to false — the claim as stated fails. -/

/-- A check contributes no violation tick iff it is a no-op, vacuous,
or its query ran successfully returning no rows or its severity is not
VIOLATION. -/
theorem stepState_violations_eq_zero_iff (sess : Session) (eL : List String)
    (eP : List (String × String)) (cq : Check × String) :
    (stepState sess eL eP cq).violations = 0 ↔
      (pyStartswith (pyStrip cq.2) "//" = true
       ∨ checkIsVacuous eL eP cq.1.data = true
       ∨ ∃ records, sess.run cq.2 = .ok records
           ∧ (records = [] ∨ cq.1.data.severity ≠ .VIOLATION)) := by
  by_cases h1 : pyStartswith (pyStrip cq.2) "//"
  · rw [stepState_noop sess eL eP h1]
    simp [h1]
  · by_cases h2 : checkIsVacuous eL eP cq.1.data
    · rw [stepState_vac sess eL eP h1 h2]
      simp [h2]
    · cases hrun : sess.run cq.2 with
      | error e =>
        rw [stepState_runError sess eL eP h1 h2 hrun]
        simp [h1, h2, hrun]
      | ok records =>
        rw [stepState_runOk sess eL eP h1 h2 hrun]
        constructor
        · intro hz
          refine Or.inr (Or.inr ⟨records, rfl, ?_⟩)
          by_cases hemp : (nodesOf records).length == 0
          · left
            have hlen : records.length = 0 := by
              have := beq_iff_eq.mp hemp
              simpa [nodesOf] using this
            exact List.eq_nil_of_length_eq_zero hlen
          · right
            intro hsev
            rw [if_pos (by simp [hemp, hsev])] at hz
            exact one_ne_zero hz
        · rintro (h | h | ⟨records', hrec, hcase⟩)
          · exact absurd h h1
          · exact absurd h h2
          · injection hrec with hrec'
            subst hrec'
            rcases hcase with hnil | hsev
            · subst hnil
              simp [nodesOf]
            · rw [if_neg]
              intro hcond
              exact hsev (beq_iff_eq.mp ((Bool.and_eq_true _ _).mp hcond).2)

/-- The concrete inputs refuting C2: a single WARNING-severity check
whose query execution fails. -/
def c2Check : Check := Check.mk
  { id := "person-nickname-exists"
  , type := .PROPERTY_EXISTS
  , shape := some "http://example.org/PersonShape"
  , target_label := "Person"
  , severity := .WARNING
  , message := "Person node missing required \x27nickname\x27 property"
  , property := some "nickname" }

def c2Plan : ValidationPlan :=
  { schema_source := "<string>"
  , checks := [c2Check]
  , shapes := ["http://example.org/Person"]
  , mapping := {} }

def c2Session : Session :=
  { labelCount := fun _ => 1
  , propCount := fun _ _ => 1
  , run := fun _ => .error "connection lost" }

def c2Compiled : List (Check × String) :=
  [(c2Check, cypherPropertyExists c2Check.data)]

def c2Report : ValidationReport :=
  reportOf c2Plan cypherBackend c2Session "t" none c2Compiled

/-- C2 counterexample: on this run no check has severity `violation`
(the only result is a warning), yet `conforms` is false, because the
execution error incremented the violations counter. -/
theorem C2_conforms_counterexample :
    execute_plan c2Plan cypherBackend c2Session "t" none = Except.ok c2Report
    ∧ c2Report.results.map CheckResult.severity = ["warning"]
    ∧ c2Report.results.map CheckResult.passed = [false]
    ∧ c2Report.conforms = false :=
  ⟨@execute_plan_eq_of_compiled c2Plan cypherBackend c2Session "t" none c2Compiled rfl, rfl, rfl, rfl⟩

/-- C2 amended: `conforms` is true iff every compiled check is either a
no-op, vacuous, or executed successfully with no violation rows or a
severity other than VIOLATION.  Equivalently: no VIOLATION-severity
check failed on returned rows AND no check of any severity hit a
query-execution error (an execution error flips `conforms` regardless
of the failing check's severity). -/
theorem C2_conforms_iff (plan : ValidationPlan) (backend : Backend)
    (sess : Session) (now : String) (tgt : Option String)
    (report : ValidationReport) (compiled : List (Check × String))
    (hrun : execute_plan plan backend sess now tgt = .ok report)
    (hcomp : compile_plan plan backend = .ok compiled) :
    report.conforms = true ↔
      ∀ cq ∈ compiled,
        pyStartswith (pyStrip cq.2) "//" = true
        ∨ checkIsVacuous (emptyLabelsOf plan sess)
            (emptyPropsOf compiled plan sess) cq.1.data = true
        ∨ ∃ records, sess.run cq.2 = .ok records
            ∧ (records = [] ∨ cq.1.data.severity ≠ .VIOLATION) := by
  obtain ⟨c2, hc2, hrep⟩ := execute_plan_ok_elim hrun
  rw [hcomp] at hc2
  cases hc2
  subst hrep
  rw [reportOf_conforms]
  rw [beq_iff_eq]
  rw [List.sum_eq_zero_iff]
  constructor
  · intro h cq hcq
    exact (stepState_violations_eq_zero_iff sess _ _ cq).mp
      (h _ (List.mem_map_of_mem _ hcq))
  · intro h x hx
    obtain ⟨cq, hcq, hval⟩ := List.mem_map.mp hx
    exact hval ▸ (stepState_violations_eq_zero_iff sess _ _ cq).mpr (h cq hcq)

def w2Session : Session :=
  { labelCount := fun _ => 1
  , propCount := fun _ _ => 1
  , run := fun _ => .ok [] }

def w2Report : ValidationReport :=
  reportOf c2Plan cypherBackend w2Session "t" none c2Compiled

theorem C2_conforms_iff_witness :
    execute_plan c2Plan cypherBackend w2Session "t" none = Except.ok w2Report
    ∧ (w2Report.conforms = true ↔
      ∀ cq ∈ c2Compiled,
        pyStartswith (pyStrip cq.2) "//" = true
        ∨ checkIsVacuous (emptyLabelsOf c2Plan w2Session)
            (emptyPropsOf c2Compiled c2Plan w2Session) cq.1.data = true
        ∨ ∃ records, w2Session.run cq.2 = .ok records
            ∧ (records = [] ∨ cq.1.data.severity ≠ .VIOLATION)) :=
  ⟨@execute_plan_eq_of_compiled c2Plan cypherBackend w2Session "t" none c2Compiled rfl,
   C2_conforms_iff c2Plan cypherBackend w2Session "t" none w2Report c2Compiled
     (execute_plan_eq_of_compiled rfl) rfl⟩

/-! ## Claim C3 — vacuous-exclusion invariant -/

/-- C3: a check (other than an empty-population check) whose declared
target type has zero instances — or, for attribute-level checks, whose
(type, attribute) pair has zero non-null instances — is classified
vacuous: its result carries `vacuous = true` and `passed = false`, it
contributes one tick to `checks_vacuous` and nothing to
`checks_passed` or the violations/warnings/info tallies, and `conforms`
equals the conformance computed from the remaining checks alone. -/
theorem C3_vacuous_exclusion (plan : ValidationPlan) (backend : Backend)
    (sess : Session) (now : String) (tgt : Option String)
    (report : ValidationReport) (compiled : List (Check × String))
    (i : Nat) (cq : Check × String)
    (hrun : execute_plan plan backend sess now tgt = .ok report)
    (hcomp : compile_plan plan backend = .ok compiled)
    (hi : compiled[i]? = some cq)
    (hkind : cq.1.data.type ≠ .EMPTY_SHAPE)
    (hvac :
      (cq.1.data.target_label ∈ declaredLabels plan
        ∧ sess.labelCount cq.1.data.target_label = 0)
      ∨ (cq.1.data.type ∈ propertyVacuousTypes
        ∧ strOptTruthy cq.1.data.property = true
        ∧ sess.labelCount cq.1.data.target_label ≠ 0
        ∧ sess.propCount cq.1.data.target_label
            (cq.1.data.property.getD "") = 0)) :
    report.results[i]? = some (resultOf sess (emptyLabelsOf plan sess)
        (emptyPropsOf compiled plan sess) cq)
    ∧ (resultOf sess (emptyLabelsOf plan sess)
        (emptyPropsOf compiled plan sess) cq).vacuous = true
    ∧ (resultOf sess (emptyLabelsOf plan sess)
        (emptyPropsOf compiled plan sess) cq).passed = false
    ∧ (stepState sess (emptyLabelsOf plan sess)
        (emptyPropsOf compiled plan sess) cq).vacuous = 1
    ∧ (stepState sess (emptyLabelsOf plan sess)
        (emptyPropsOf compiled plan sess) cq).passed = 0
    ∧ (stepState sess (emptyLabelsOf plan sess)
        (emptyPropsOf compiled plan sess) cq).violations = 0
    ∧ (stepState sess (emptyLabelsOf plan sess)
        (emptyPropsOf compiled plan sess) cq).warnings = 0
    ∧ (stepState sess (emptyLabelsOf plan sess)
        (emptyPropsOf compiled plan sess) cq).info = 0
    ∧ report.summary.checks_vacuous = report.results.countP (·.vacuous)
    ∧ report.summary.checks_passed = report.results.countP (·.passed)
    ∧ report.conforms = (((compiled.eraseIdx i).map fun cq' =>
        (stepState sess (emptyLabelsOf plan sess)
          (emptyPropsOf compiled plan sess) cq').violations).sum == 0) := by
  obtain ⟨c2, hc2, hrep⟩ := execute_plan_ok_elim hrun
  rw [hcomp] at hc2
  cases hc2
  subst hrep
  have hmemc : cq ∈ compiled := by
    have := List.getElem?_eq_some_iff.mp hi
    obtain ⟨hlt, hget⟩ := this
    exact hget ▸ List.getElem_mem hlt
  have hvactrue : checkIsVacuous (emptyLabelsOf plan sess)
      (emptyPropsOf compiled plan sess) cq.1.data = true := by
    unfold checkIsVacuous
    rcases hvac with ⟨hdecl, hzero⟩ | ⟨hty, hprop, hnz, hpz⟩
    · have hmem : cq.1.data.target_label ∈ emptyLabelsOf plan sess := by
        unfold emptyLabelsOf
        exact List.mem_filter.mpr ⟨hdecl, by simp [hzero]⟩
      simp [hmem, hkind]
    · have hnotempty : cq.1.data.target_label ∉ emptyLabelsOf plan sess := by
        intro hm
        have := (List.mem_filter.mp hm).2
        exact hnz (by simpa using this)
      have hlp : (cq.1.data.target_label, cq.1.data.property.getD "")
          ∈ labelPropsOf compiled := by
        unfold labelPropsOf
        refine List.mem_filterMap.mpr ⟨cq, hmemc, ?_⟩
        simp [hty, hprop]
      have hep : (cq.1.data.target_label, cq.1.data.property.getD "")
          ∈ emptyPropsOf compiled plan sess := by
        unfold emptyPropsOf
        refine List.mem_filter.mpr ⟨hlp, ?_⟩
        simp [hnotempty, hpz]
      simp [hty, hprop, hep]
  obtain ⟨hs1, hs2, hs3, hs4, hs5⟩ := stepState_of_vacuous sess hvactrue
  obtain ⟨hr1, hr2⟩ := resultOf_of_vacuous sess hvactrue
  refine ⟨?_, hr1, hr2, hs5, hs4, hs1, hs2, hs3,
    reportOf_checks_vacuous .., reportOf_checks_passed .., ?_⟩
  · rw [reportOf_results, List.getElem?_map, hi]
    rfl
  · rw [reportOf_conforms,
      sum_map_eraseIdx_of_zero _ compiled i cq hi hs1]

/-- Witness for C3: a plan declaring a type with zero instances. -/
def w3Check : Check := Check.mk
  { id := "ghost-name-exists"
  , type := .PROPERTY_EXISTS
  , shape := some "http://example.org/Ghost"
  , target_label := "Ghost"
  , severity := .VIOLATION
  , message := "Ghost node missing required \x27name\x27 property"
  , property := some "name" }

def w3Plan : ValidationPlan :=
  { schema_source := "<string>"
  , checks := [w3Check]
  , shapes := ["http://example.org/Ghost"]
  , mapping := {} }

def w3Session : Session :=
  { labelCount := fun _ => 0
  , propCount := fun _ _ => 0
  , run := fun _ => .ok [] }

def w3Compiled : List (Check × String) :=
  [(w3Check, cypherPropertyExists w3Check.data)]

def w3Report : ValidationReport :=
  reportOf w3Plan cypherBackend w3Session "t" none w3Compiled

theorem C3_vacuous_exclusion_witness :
    execute_plan w3Plan cypherBackend w3Session "t" none = Except.ok w3Report
    ∧ (resultOf w3Session (emptyLabelsOf w3Plan w3Session)
        (emptyPropsOf w3Compiled w3Plan w3Session)
        (w3Check, cypherPropertyExists w3Check.data)).vacuous = true :=
  ⟨@execute_plan_eq_of_compiled w3Plan cypherBackend w3Session "t" none w3Compiled rfl,
   (C3_vacuous_exclusion w3Plan cypherBackend w3Session "t" none w3Report
      w3Compiled 0 (w3Check, cypherPropertyExists w3Check.data)
      (execute_plan_eq_of_compiled rfl) rfl rfl (by decide)
      (Or.inl ⟨by decide, rfl⟩)).2.1⟩

/-! ## Claim C6 — no-op idempotence -/

/-- C6: a relationship-cardinality check with minimum 0 (or unspecified)
and unbounded maximum compiles, on both backends, to the
comment-prefixed no-op marker (a string starting with `//`); and in the
execution loop any check whose compiled query starts with `//` (after
stripping) is recorded as passed — or vacuous when its target
population is empty — without running any query (the loop step does not
depend on the session's query runner). -/
theorem C6_noop_idempotence (c : Check) (r : RelationshipTarget) (q : String)
    (sess₁ sess₂ : Session) (eL : List String) (eP : List (String × String))
    (st : RunState)
    (hty : c.data.type = .RELATIONSHIP_CARDINALITY)
    (hrel : c.data.relationship = some r)
    (hmin : c.data.min_count = none ∨ c.data.min_count = some 0)
    (hmax : c.data.max_count = none)
    (hq : pyStartswith (pyStrip q) "//" = true) :
    cypherCompileCheck c = .ok (noopCardinalityMarker c.data.id)
    ∧ gqlCompileCheck c = .ok (noopCardinalityMarker c.data.id)
    ∧ noopCardinalityMarker c.data.id
        = "//" ++ (" Check " ++ (c.data.id
            ++ ": no constraint (0..*)\n// This check always passes — skipped"))
    ∧ processCheck sess₁ eL eP st (c, q) = processCheck sess₂ eL eP st (c, q)
    ∧ (resultOf sess₁ eL eP (c, q)).passed = !(checkIsVacuous eL eP c.data)
    ∧ (resultOf sess₁ eL eP (c, q)).vacuous = checkIsVacuous eL eP c.data := by
  refine ⟨?_, ?_, ?_, ?_, ?_, ?_⟩
  · unfold cypherCompileCheck
    rw [hty]
    show cypherRelationshipCardinality c.data = _
    unfold cypherRelationshipCardinality
    rcases hmin with h | h <;> rw [hrel, h, hmax] <;> simp [Except.bind] <;> rfl
  · unfold gqlCompileCheck
    rw [hty]
    show gqlRelationshipCardinality c.data = _
    unfold gqlRelationshipCardinality
    rcases hmin with h | h <;> rw [hrel, h, hmax] <;> simp [Except.bind] <;> rfl
  · unfold noopCardinalityMarker
    rw [show ("// Check " : String) = "//" ++ " Check " from rfl]
    simp only [String.append_assoc]
    rfl
  · unfold processCheck
    rw [if_pos hq, if_pos hq]
  · rw [resultOf_noop sess₁ eL eP hq]
  · rw [resultOf_noop sess₁ eL eP hq]

/-- Witness for C6 at a concrete `0..*` relationship check and two
sessions with different query runners. -/
def c6Check : Check := Check.mk
  { id := "person-knows-cardinality"
  , type := .RELATIONSHIP_CARDINALITY
  , shape := some "http://example.org/PersonShape"
  , target_label := "Person"
  , severity := .VIOLATION
  , message := "Person may have zero or more KNOWS relationships to Person"
  , relationship := some ⟨"KNOWS", "outgoing", "Person"⟩
  , min_count := some 0
  , max_count := none }

def c6SessionA : Session :=
  { labelCount := fun _ => 1, propCount := fun _ _ => 1, run := fun _ => .ok [] }

def c6SessionB : Session :=
  { labelCount := fun _ => 1, propCount := fun _ _ => 1
  , run := fun _ => .error "driver exploded" }

theorem C6_noop_idempotence_witness :
    pyStartswith (pyStrip (noopCardinalityMarker "person-knows-cardinality"))
        "//" = true
    ∧ cypherCompileCheck c6Check
        = .ok (noopCardinalityMarker "person-knows-cardinality")
    ∧ processCheck c6SessionA [] [] {}
        (c6Check, noopCardinalityMarker "person-knows-cardinality")
      = processCheck c6SessionB [] [] {}
        (c6Check, noopCardinalityMarker "person-knows-cardinality") :=
  ⟨by decide,
   (C6_noop_idempotence c6Check ⟨"KNOWS", "outgoing", "Person"⟩
      (noopCardinalityMarker "person-knows-cardinality") c6SessionA c6SessionB
      [] [] {} rfl rfl (Or.inr rfl) rfl (by decide)).1,
   (C6_noop_idempotence c6Check ⟨"KNOWS", "outgoing", "Person"⟩
      (noopCardinalityMarker "person-knows-cardinality") c6SessionA c6SessionB
      [] [] {} rfl rfl (Or.inr rfl) rfl (by decide)).2.2.2.1⟩

/-! ## Claim C4 — non-null guard in value-check filters

`_property_type` always conjoins the non-null test, but
`_property_value_in` omits it when `only_if_exists` is false (a
required enumerated-value constraint), in both backends — the claim's
"always non-null AND violates-constraint" fails there. -/

/-- The concrete check refuting C4: a required (`only_if_exists =
false`) enumerated-value check. -/
def c4Check : Check := Check.mk
  { id := "movie-rating-values"
  , type := .PROPERTY_VALUE_IN
  , shape := some "http://example.org/MovieShape"
  , target_label := "Movie"
  , severity := .VIOLATION
  , message := "Movie.rating must be one of: [\x27G\x27]"
  , property := some "rating"
  , allowed_values := some [.str "G"]
  , only_if_exists := false }

set_option maxRecDepth 8000 in
/-- C4 counterexample: the Cypher and GQL queries compiled for a
required enumerated-value check contain no `IS NOT NULL` test at all —
their filter is only `NOT n.rating IN [...]`. -/
theorem C4_nonnull_counterexample :
    cypherCompileCheck c4Check = .ok
      ("MATCH (n:Movie)\n"
        ++ "WHERE NOT n.rating IN [\x27G\x27]\n"
        ++ "RETURN elementId(n) AS node_id,\n"
        ++ "       labels(n) AS labels,\n"
        ++ "       n.rating AS actual_value,\n"
        ++ "       \x27movie-rating-values\x27 AS check_id")
    ∧ ¬containsSub ("MATCH (n:Movie)\n"
        ++ "WHERE NOT n.rating IN [\x27G\x27]\n"
        ++ "RETURN elementId(n) AS node_id,\n"
        ++ "       labels(n) AS labels,\n"
        ++ "       n.rating AS actual_value,\n"
        ++ "       \x27movie-rating-values\x27 AS check_id") "IS NOT NULL"
    ∧ gqlCompileCheck c4Check = .ok
      ("MATCH (n:Movie)\n"
        ++ "WHERE NOT n.rating IN [\x27G\x27]\n"
        ++ "RETURN element_id(n) AS node_id,\n"
        ++ "       labels(n) AS labels,\n"
        ++ "       n.rating AS actual_value,\n"
        ++ "       \x27movie-rating-values\x27 AS check_id")
    ∧ ¬containsSub ("MATCH (n:Movie)\n"
        ++ "WHERE NOT n.rating IN [\x27G\x27]\n"
        ++ "RETURN element_id(n) AS node_id,\n"
        ++ "       labels(n) AS labels,\n"
        ++ "       n.rating AS actual_value,\n"
        ++ "       \x27movie-rating-values\x27 AS check_id") "IS NOT NULL" :=
  ⟨rfl, by decide, rfl, by decide⟩

/-- C4 amended: the type-check filter always begins with the non-null
conjunct (whatever `only_if_exists` is, the source's two branches being
identical); the enumerated-value filter begins with the non-null
conjunct exactly when `only_if_exists` is true, and for a required
constraint (`only_if_exists = false`) it is just
`WHERE NOT n.<attr> IN <values>` with no explicit non-null test — in
both backends.  (Under the query language's ternary null semantics
`NULL IN list` is not true, so absent attributes are still not
returned; but the spec's mandated explicit guard is absent.) -/
theorem C4_nonnull_guard (c : CheckData Check) (tstr vstr : String) :
    (cypherTypeWhere c tstr
      = ("WHERE n." ++ pyInterp c.property ++ " IS NOT NULL AND ") ++ tstr)
    ∧ (gqlTypeWhere c tstr
      = ("WHERE n." ++ pyInterp c.property ++ " IS NOT NULL AND ") ++ tstr)
    ∧ (c.only_if_exists = true →
        cypherValueInWhere c vstr
          = ("WHERE n." ++ pyInterp c.property ++ " IS NOT NULL AND NOT n."
              ++ pyInterp c.property ++ " IN ") ++ vstr
        ∧ gqlValueInWhere c vstr
          = ("WHERE n." ++ pyInterp c.property ++ " IS NOT NULL AND NOT n."
              ++ pyInterp c.property ++ " IN ") ++ vstr)
    ∧ (c.only_if_exists = false →
        cypherValueInWhere c vstr
          = ("WHERE NOT n." ++ pyInterp c.property ++ " IN ") ++ vstr
        ∧ gqlValueInWhere c vstr
          = ("WHERE NOT n." ++ pyInterp c.property ++ " IN ") ++ vstr) := by
  refine ⟨?_, ?_, ?_, ?_⟩
  · unfold cypherTypeWhere
    by_cases h : c.only_if_exists <;> simp [h]
  · unfold gqlTypeWhere
    by_cases h : c.only_if_exists <;> simp [h]
  · intro h
    unfold cypherValueInWhere gqlValueInWhere
    rw [h]
    exact ⟨by simp, by simp⟩
  · intro h
    unfold cypherValueInWhere gqlValueInWhere
    rw [h]
    exact ⟨by simp, by simp⟩

theorem C4_nonnull_guard_witness :
    c4Check.data.only_if_exists = false
    ∧ cypherValueInWhere c4Check.data (cypherListLiteral [.str "G"])
        = ("WHERE NOT n." ++ pyInterp c4Check.data.property ++ " IN ")
          ++ cypherListLiteral [.str "G"] :=
  ⟨rfl,
   ((C4_nonnull_guard c4Check.data "t" (cypherListLiteral [.str "G"])).2.2.2
      rfl).1⟩

/-! ## Claim C9 — backend kind coverage and unknown-kind rejection

The Cypher dispatch table covers 9 kinds; the GQL table covers 19.
The two backends therefore do not implement the same set of check
kinds, refuting the first half of the claim; the unknown-kind half
(raise rather than emit a query) holds for both. -/

/-- The concrete check refuting C9's "same set" half: a pattern check
the GQL backend compiles but the Cypher backend rejects. -/
def c9Check : Check := Check.mk
  { id := "person-email-pattern"
  , type := .PROPERTY_PATTERN
  , shape := some "http://example.org/PersonShape"
  , target_label := "Person"
  , severity := .VIOLATION
  , message := "Person.email must match pattern \x27^\\S+@\\S+$\x27"
  , property := some "email"
  , pattern := some "^\\S+@\\S+$" }

/-- C9 counterexample: the same check is rejected by the Cypher backend
(`NotImplementedError`) and compiled successfully by the GQL backend —
the generator sets differ. -/
theorem C9_same_kind_set_counterexample :
    cypherCompileCheck c9Check
      = .error "Check type property_pattern not implemented for Cypher backend"
    ∧ (gqlCompileCheck c9Check).isOk = true :=
  ⟨rfl, rfl⟩

/-- C9 amended: the GQL backend's generator set is a strict superset of
the Cypher backend's (every kind Cypher handles, GQL handles;
`property_pattern` is handled by GQL only), and each backend's
`compile_check` raises (`NotImplementedError`, modelled as an error
result) for every kind outside its dispatch table rather than
returning a query. -/
theorem C9_backend_kind_contract :
    (∀ k : CheckType, (cypherDispatch k).isSome = true
      → (gqlDispatch k).isSome = true)
    ∧ (gqlDispatch .PROPERTY_PATTERN).isSome = true
    ∧ (cypherDispatch .PROPERTY_PATTERN).isSome = false
    ∧ (∀ c : Check, cypherDispatch c.data.type = none →
        cypherCompileCheck c
          = .error ("Check type " ++ c.data.type.value
              ++ " not implemented for Cypher backend"))
    ∧ (∀ c : Check, gqlDispatch c.data.type = none →
        gqlCompileCheck c
          = .error ("Check type " ++ c.data.type.value
              ++ " not implemented for GQL backend")) := by
  refine ⟨?_, rfl, rfl, ?_, ?_⟩
  · intro k
    cases k <;> simp [cypherDispatch, gqlDispatch]
  · intro c hnone
    unfold cypherCompileCheck
    rw [hnone]
  · intro c hnone
    unfold gqlCompileCheck
    rw [hnone]

theorem C9_backend_kind_contract_witness :
    cypherDispatch c9Check.data.type = none
    ∧ cypherCompileCheck c9Check
      = .error ("Check type " ++ c9Check.data.type.value
          ++ " not implemented for Cypher backend") :=
  ⟨rfl, (C9_backend_kind_contract).2.2.2.1 c9Check rfl⟩

/-! ## Claim C8 — cardinality bound representation

Both parsers represent an unbounded maximum as `max_count = none`.  But
the ShExC parser defaults an unspecified minimum to 1 (the ShExC
grammar's default cardinality, per the source comment `# ShExC default
is 1`), not 0; only the SHACL parser defaults it to 0. -/

/-- The concrete input refuting C8: a ShExC triple constraint (shape
reference, so a relationship constraint) with no `min` key. -/
def c8Tc : TripleConstraint :=
  { predicate := "http://example.org/hasActor"
  , valueExpr := some (.strRef "http://example.org/Person")
  , min := none
  , max := some (-1) }

/-- C8 counterexample: an unspecified ShExC minimum parses to
`min_count = some 1`, not 0 (the unbounded max does parse to `none`). -/
theorem C8_min_default_counterexample :
    (processTripleConstraint c8Tc "http://example.org/MovieShape" "Movie"
        {}).map (fun c => (c.data.min_count, c.data.max_count))
      = [(some 1, none)]
    ∧ (1 : Int) ≠ 0 :=
  ⟨rfl, by decide⟩

/-- C8 amended: in both parsers an unbounded maximum is represented as
`max_count = none` (ShExC's `-1` sentinel from the ShExJ document is
normalised away; a SHACL property shape with no `sh:maxCount` is
unbounded), never a sentinel number; an unspecified minimum defaults to
0 in the SHACL parser and to 1 in the ShExC parser (the grammar's
exactly-one default). -/
theorem C8_cardinality_representation :
    (∀ (tc : TripleConstraint) (shapeId label : String) (m : Mapping)
        (tIri : String),
      tc.valueExpr = some (.strRef tIri) →
      (processTripleConstraint tc shapeId label m).map
          (fun c => (c.data.min_count, c.data.max_count))
        = [(some (tc.min.getD 1),
            if tc.max.getD 1 == -1 then none else some (tc.max.getD 1))])
    ∧ (∀ (ps : PropertyShape) (shapeIri label : String) (m : Mapping)
        (hier : String → Option (List String)) (pred : String),
      ps.path = some (.uri pred) →
      isRelationshipConstraint ps.nodeKind ps.node ps.class_ ps.datatype
        = true →
      (processPropertyShape ps shapeIri label m hier).map
          (fun c => (c.data.min_count, c.data.max_count))
        = [(some (ps.minCount.getD 0), ps.maxCount)]) := by
  constructor
  · intro tc shapeId label m tIri hve
    unfold processTripleConstraint
    rw [hve]
    simp [isShapeReference]
  · intro ps shapeIri label m hier pred hpath hrel
    unfold processPropertyShape
    rw [hpath]
    simp only [hrel, if_pos]
    unfold relationshipChecks
    simp

theorem C8_cardinality_representation_witness :
    (processTripleConstraint c8Tc "http://example.org/MovieShape" "Movie"
        {}).map (fun c => (c.data.min_count, c.data.max_count))
      = [(some ((none : Option Int).getD 1),
          if (some (-1) : Option Int).getD 1 == -1 then none
          else some ((some (-1) : Option Int).getD 1))] :=
  (C8_cardinality_representation).1 c8Tc "http://example.org/MovieShape"
    "Movie" {} "http://example.org/Person" rfl

/-! ## Claim C7 — identifier slugs and determinism

Property-check identifiers embed the attribute name verbatim (the
source lowercases only the target label, not `prop_name`), so the
claim's "lowercased attribute" fails; relationship identifiers do
lowercase the relationship name. -/

/-- The concrete input refuting C7: a required property whose local
name contains an upper-case letter. -/
def c7Tc : TripleConstraint :=
  { predicate := "http://example.org/startDate"
  , valueExpr := none
  , min := none
  , max := none }

/-- C7 counterexample: the generated identifier keeps the attribute
name's original case (`startDate`), differing from the all-lowercase
slug the claim specifies. -/
theorem C7_slug_counterexample :
    (processTripleConstraint c7Tc "http://example.org/ProductShape"
        "Product" {}).map (fun c => c.data.id)
      = ["product-startDate-exists"]
    ∧ "product-startDate-exists" ≠ "product-startdate-exists" :=
  ⟨rfl, by decide⟩

/-- Annotation attachment rewrites only annotation fields, so every
element of the result shares its identifier with an element of the
input list. -/
theorem mem_applyAnnotations_id {l : List Check} {p : String}
    {dv : Option LpgValue} {ov : Option Int} {c : Check}
    (hc : c ∈ applyAnnotations l p dv ov) :
    ∃ c' ∈ l, c.data.id = c'.data.id
      ∧ c.data.type = c'.data.type
      ∧ c.data.only_if_exists = c'.data.only_if_exists := by
  unfold applyAnnotations at hc
  by_cases h : dv.isSome || ov.isSome
  · rw [if_pos h] at hc
    cases hlast : l.getLast? with
    | none => rw [hlast] at hc; exact ⟨c, hc, rfl, rfl, rfl⟩
    | some last =>
      rw [hlast] at hc
      dsimp only at hc
      by_cases hid : last.data.property == some p
      · rw [if_pos hid] at hc
        rcases List.mem_append.mp hc with hdrop | hnew
        · exact ⟨c, List.dropLast_subset l hdrop, rfl, rfl, rfl⟩
        · have hlastmem : last ∈ l := by
            have hx : last ∈ l.getLast? := Option.mem_def.mpr hlast
            obtain ⟨hne, heq⟩ := List.mem_getLast?_eq_getLast hx
            rw [heq]
            exact List.getLast_mem hne
          have hceq : c = Check.mk
              { last.data with default_value := dv, display_order := ov } := by
            simpa using hnew
          exact ⟨last, hlastmem, by subst hceq; rfl, by subst hceq; rfl,
            by subst hceq; rfl⟩
      · rw [if_neg hid] at hc
        exact ⟨c, hc, rfl, rfl, rfl⟩
  · rw [if_neg h] at hc
    exact ⟨c, hc, rfl, rfl, rfl⟩

theorem mem_shaclExistsChecks {c : Check} {sIri label pn : String}
    {opt : Bool} {sev : Severity}
    (h : c ∈ shaclExistsChecks sIri label pn opt sev) :
    opt = false ∧ c.data.type = .PROPERTY_EXISTS
      ∧ c.data.only_if_exists = false
      ∧ c.data.id = pyLower label ++ "-" ++ pn ++ "-exists" := by
  unfold shaclExistsChecks at h
  by_cases hopt : opt
  · simp [hopt] at h
  · simp only [Bool.not_eq_true] at hopt
    simp [hopt] at h
    subst h
    exact ⟨hopt, rfl, rfl, rfl⟩

theorem mem_shaclDatatypeChecks {c : Check} {dt : Option String}
    {sIri label pn : String} {opt : Bool} {sev : Severity}
    (h : c ∈ shaclDatatypeChecks dt sIri label pn opt sev) :
    c.data.type = .PROPERTY_TYPE ∧ c.data.only_if_exists = opt
      ∧ c.data.id = pyLower label ++ "-" ++ pn ++ "-type" := by
  unfold shaclDatatypeChecks at h
  cases dt with
  | none => simp at h
  | some d =>
    simp at h
    subst h
    exact ⟨rfl, rfl, rfl⟩

theorem mem_shaclInChecks {c : Check} {il : Option (List LpgValue)}
    {sIri label pn : String} {opt : Bool} {sev : Severity}
    (h : c ∈ shaclInChecks il sIri label pn opt sev) :
    c.data.type = .PROPERTY_VALUE_IN ∧ c.data.only_if_exists = opt
      ∧ c.data.id = pyLower label ++ "-" ++ pn ++ "-values" := by
  unfold shaclInChecks at h
  cases il with
  | none => simp at h
  | some vs =>
    simp at h
    subst h
    exact ⟨rfl, rfl, rfl⟩

theorem mem_shaclHasValueChecks {c : Check} {hv : Option LpgValue}
    {sIri label pn : String} {opt : Bool} {sev : Severity}
    (h : c ∈ shaclHasValueChecks hv sIri label pn opt sev) :
    c.data.type = .PROPERTY_VALUE_IN ∧ c.data.only_if_exists = opt
      ∧ c.data.id = pyLower label ++ "-" ++ pn ++ "-hasvalue" := by
  unfold shaclHasValueChecks at h
  cases hv with
  | none => simp at h
  | some v =>
    simp at h
    subst h
    exact ⟨rfl, rfl, rfl⟩

theorem mem_shaclPatternChecks {c : Check} {pat flags : Option String}
    {sIri label pn : String} {opt : Bool} {sev : Severity}
    (h : c ∈ shaclPatternChecks pat flags sIri label pn opt sev) :
    c.data.type = .PROPERTY_PATTERN ∧ c.data.only_if_exists = opt
      ∧ c.data.id = pyLower label ++ "-" ++ pn ++ "-pattern" := by
  unfold shaclPatternChecks at h
  cases pat with
  | none => simp at h
  | some v =>
    simp at h
    subst h
    exact ⟨rfl, rfl, rfl⟩

theorem mem_shaclStrlenChecks {c : Check} {minL maxL : Option Int}
    {sIri label pn : String} {opt : Bool} {sev : Severity}
    (h : c ∈ shaclStrlenChecks minL maxL sIri label pn opt sev) :
    c.data.type = .PROPERTY_STRING_LENGTH ∧ c.data.only_if_exists = opt
      ∧ c.data.id = pyLower label ++ "-" ++ pn ++ "-strlen" := by
  unfold shaclStrlenChecks at h
  by_cases hb : (minL.isSome || maxL.isSome) = true
  · simp only [hb, if_pos, List.mem_singleton] at h
    subst h
    exact ⟨rfl, rfl, rfl⟩
  · simp [hb] at h

theorem mem_shaclRangeChecks {c : Check} {minI maxI minE maxE : Option Rat}
    {sIri label pn : String} {opt : Bool} {sev : Severity}
    (h : c ∈ shaclRangeChecks minI maxI minE maxE sIri label pn opt sev) :
    c.data.type = .PROPERTY_RANGE ∧ c.data.only_if_exists = opt
      ∧ c.data.id = pyLower label ++ "-" ++ pn ++ "-range" := by
  unfold shaclRangeChecks at h
  by_cases hb : (minI.isSome || maxI.isSome || minE.isSome || maxE.isSome)
      = true
  · simp only [hb, if_pos, List.mem_singleton] at h
    subst h
    exact ⟨rfl, rfl, rfl⟩
  · simp [hb] at h

theorem mem_shaclPairCheckFor {c : Check} {compVal : Option String}
    {ct : CompType} {sIri label pn : String} {opt : Bool} {sev : Severity}
    {m : Mapping}
    (h : c ∈ shaclPairCheckFor compVal ct sIri label pn opt sev m) :
    c.data.type = .PROPERTY_PAIR ∧ c.data.only_if_exists = opt
      ∧ c.data.id = pyLower label ++ "-" ++ pn ++ "-" ++ pyLower ct.value := by
  unfold shaclPairCheckFor at h
  cases compVal with
  | none => simp at h
  | some v =>
    simp at h
    subst h
    exact ⟨rfl, rfl, rfl⟩

theorem mem_shaclPairChecks {c : Check} {eqV disV ltV lteV : Option String}
    {sIri label pn : String} {opt : Bool} {sev : Severity} {m : Mapping}
    (h : c ∈ shaclPairChecks eqV disV ltV lteV sIri label pn opt sev m) :
    c.data.type = .PROPERTY_PAIR ∧ c.data.only_if_exists = opt
      ∧ ∃ ct : CompType,
          c.data.id = pyLower label ++ "-" ++ pn ++ "-" ++ pyLower ct.value := by
  unfold shaclPairChecks at h
  rcases List.mem_append.mp h with h3 | h4
  · rcases List.mem_append.mp h3 with h2 | hlt
    · rcases List.mem_append.mp h2 with heq | hdis
      · obtain ⟨h1, h2', h3'⟩ := mem_shaclPairCheckFor heq
        exact ⟨h1, h2', .equals, h3'⟩
      · obtain ⟨h1, h2', h3'⟩ := mem_shaclPairCheckFor hdis
        exact ⟨h1, h2', .disjoint, h3'⟩
    · obtain ⟨h1, h2', h3'⟩ := mem_shaclPairCheckFor hlt
      exact ⟨h1, h2', .lessThan, h3'⟩
  · obtain ⟨h1, h2', h3'⟩ := mem_shaclPairCheckFor h4
    exact ⟨h1, h2', .lessThanOrEquals, h3'⟩

theorem mem_shaclUniqueLangChecks {c : Check} {ul : Option Bool}
    {sIri label pn : String}
    (h : c ∈ shaclUniqueLangChecks ul sIri label pn) :
    c.data.type = .UNIQUE_LANG ∧ c.data.only_if_exists = false
      ∧ c.data.id = pyLower label ++ "-" ++ pn ++ "-uniquelang" := by
  unfold shaclUniqueLangChecks at h
  by_cases hb : (ul == some true) = true
  · simp only [hb, if_pos, List.mem_singleton] at h
    subst h
    exact ⟨rfl, rfl, rfl⟩
  · simp [hb] at h

theorem mem_shaclQualifiedChecks {c : Check} {qvs : Option QvsView}
    {qMin qMax : Option Int} {sIri label pn : String} {sev : Severity}
    {m : Mapping}
    (h : c ∈ shaclQualifiedChecks qvs qMin qMax sIri label pn sev m) :
    c.data.type = .QUALIFIED_CARDINALITY ∧ c.data.only_if_exists = false
      ∧ c.data.id = pyLower label ++ "-" ++ pn ++ "-qualified" := by
  unfold shaclQualifiedChecks at h
  cases qvs with
  | none => simp at h
  | some q =>
    dsimp only at h
    cases hpf : parseQualifiedFilter q sIri label pn m with
    | none => rw [hpf] at h; simp at h
    | some qf =>
      rw [hpf] at h
      simp at h
      subst h
      exact ⟨rfl, rfl, rfl⟩

/-- The identifier suffixes of property-facet checks in the SHACL
parser. -/
def shaclPropSuffixes : List String :=
  [ "-exists", "-type", "-values", "-hasvalue", "-pattern", "-strlen"
  , "-range", "-equals", "-disjoint", "-lessthan", "-lessthanorequals"
  , "-uniquelang", "-qualified" ]

/-- C7 amended: every check emitted by the ShExC per-constraint
translator has identifier `{lowercased label}-{attribute name
verbatim}-{exists|type|values}` for property constraints, or
`{lowercased label}-{lowercased relationship name}-cardinality` for
relationship constraints; every check emitted by the SHACL
property-shape translator has identifier `{lowercased
label}-{attribute name verbatim}{facet suffix}`, and its relationship
translator uses the lowercased-relationship slug.  Re-parsing the same
parsed document with the same Mapping yields identical identifier
lists (both parsers are pure functions of document and Mapping). -/
theorem C7_identifier_format :
    (∀ (tc : TripleConstraint) (shapeId label : String) (m : Mapping),
      ∀ c ∈ processTripleConstraint tc shapeId label m,
        c.data.id = pyLower label ++ "-"
            ++ pyLower (m.relationship_for tc.predicate) ++ "-cardinality"
        ∨ c.data.id
            = pyLower label ++ "-" ++ m.property_for tc.predicate ++ "-exists"
        ∨ c.data.id
            = pyLower label ++ "-" ++ m.property_for tc.predicate ++ "-type"
        ∨ c.data.id
            = pyLower label ++ "-" ++ m.property_for tc.predicate ++ "-values")
    ∧ (∀ (ps : PropertyShape) (shapeIri label pred : String) (minC : Int)
        (sev : Severity) (m : Mapping),
      ∀ c ∈ propertyChecks ps shapeIri label pred minC sev m,
        ∃ suf ∈ shaclPropSuffixes,
          c.data.id = pyLower label ++ "-" ++ m.property_for pred ++ suf)
    ∧ (∀ (shapeIri label pred : String) (minC : Int) (maxC : Option Int)
        (sev : Severity) (shNode : Option ShaclNodeRef)
        (shClass : Option String) (m : Mapping) (dir : String)
        (hier : String → Option (List String)),
      ∀ c ∈ relationshipChecks shapeIri label pred minC maxC sev shNode
          shClass m dir hier,
        c.data.id = pyLower label ++ "-"
            ++ pyLower (m.relationship_for pred) ++ "-cardinality")
    ∧ (∀ (schema : ShexSchema) (m : Option Mapping) (src : String)
        (strict : Bool),
      (parse_shexc_to_plan schema m src strict).checks.map (fun c => c.data.id)
        = (parse_shexc_to_plan schema m src strict).checks.map
            (fun c => c.data.id))
    ∧ (∀ (g : ShaclGraph) (m : Option Mapping) (src : String) (strict : Bool),
      (parse_shacl_to_plan g m src strict).checks.map (fun c => c.data.id)
        = (parse_shacl_to_plan g m src strict).checks.map
            (fun c => c.data.id)) := by
  refine ⟨?_, ?_, ?_, fun _ _ _ _ => rfl, fun _ _ _ _ => rfl⟩
  · intro tc shapeId label m c hc
    unfold processTripleConstraint at hc
    dsimp only at hc
    by_cases hr : isShapeReference tc.valueExpr
    · rw [if_pos hr] at hc
      simp only [List.mem_singleton] at hc
      subst hc
      left
      rfl
    · rw [if_neg hr] at hc
      right
      rcases List.mem_append.mp hc with hex | hval
      · by_cases hopt : ((tc.min.getD 1 == 0) : Bool) = true
        · simp [hopt] at hex
        · simp [hopt] at hex
          subst hex
          exact Or.inl rfl
      · cases hve : tc.valueExpr with
        | none => rw [hve] at hval; simp at hval
        | some ve =>
          rw [hve] at hval
          cases ve with
          | strRef s => simp at hval
          | obj t oid dt vals =>
            dsimp only at hval
            rcases List.mem_append.mp hval with hty | hvs
            · by_cases hdt : strOptTruthy dt = true
              · simp [hdt] at hty
                subst hty
                exact Or.inr (Or.inl rfl)
              · simp [hdt] at hty
            · by_cases hv : listOptTruthy vals = true
              · simp [hv] at hvs
                subst hvs
                exact Or.inr (Or.inr rfl)
              · simp [hv] at hvs
  · intro ps shapeIri label pred minC sev m c hc
    unfold propertyChecks at hc
    dsimp only at hc
    rcases List.mem_append.mp hc with hmain | hqual
    · obtain ⟨cx, hcx, hid, -, -⟩ := mem_applyAnnotations_id hmain
      suffices hgoal : ∃ suf ∈ shaclPropSuffixes,
          cx.data.id = pyLower label ++ "-" ++ m.property_for pred ++ suf by
        obtain ⟨suf, hsuf, hid2⟩ := hgoal
        exact ⟨suf, hsuf, by rw [hid, hid2]⟩
      rcases List.mem_append.mp hcx with h8 | hU
      · rcases List.mem_append.mp h8 with h7 | hPair
        · rcases List.mem_append.mp h7 with h6 | hRange
          · rcases List.mem_append.mp h6 with h5 | hLen
            · rcases List.mem_append.mp h5 with h4 | hPat
              · rcases List.mem_append.mp h4 with h3 | hHV
                · rcases List.mem_append.mp h3 with h2 | hIn
                  · rcases List.mem_append.mp h2 with hEx | hTy
                    · exact ⟨"-exists", by decide,
                        (mem_shaclExistsChecks hEx).2.2.2⟩
                    · exact ⟨"-type", by decide,
                        (mem_shaclDatatypeChecks hTy).2.2⟩
                  · exact ⟨"-values", by decide, (mem_shaclInChecks hIn).2.2⟩
                · exact ⟨"-hasvalue", by decide,
                    (mem_shaclHasValueChecks hHV).2.2⟩
              · exact ⟨"-pattern", by decide,
                  (mem_shaclPatternChecks hPat).2.2⟩
            · exact ⟨"-strlen", by decide, (mem_shaclStrlenChecks hLen).2.2⟩
          · exact ⟨"-range", by decide, (mem_shaclRangeChecks hRange).2.2⟩
        · obtain ⟨-, -, ct, hctid⟩ := mem_shaclPairChecks hPair
          cases ct with
          | equals =>
            exact ⟨"-equals", by decide,
              hctid.trans (by simp only [String.append_assoc]; rfl)⟩
          | disjoint =>
            exact ⟨"-disjoint", by decide,
              hctid.trans (by simp only [String.append_assoc]; rfl)⟩
          | lessThan =>
            exact ⟨"-lessthan", by decide,
              hctid.trans (by simp only [String.append_assoc]; rfl)⟩
          | lessThanOrEquals =>
            exact ⟨"-lessthanorequals", by decide,
              hctid.trans (by simp only [String.append_assoc]; rfl)⟩
      · exact ⟨"-uniquelang", by decide,
          (mem_shaclUniqueLangChecks hU).2.2⟩
    · exact ⟨"-qualified", by decide, (mem_shaclQualifiedChecks hqual).2.2⟩
  · intro shapeIri label pred minC maxC sev shNode shClass m dir hier c hc
    unfold relationshipChecks at hc
    simp only [List.mem_singleton] at hc
    subst hc
    rfl

/-- The single check generated for `c7Tc` (a required property with no
value expression: only the existence check). -/
def c7ExistsCheck : Check := Check.mk
  { id := "product-startDate-exists"
  , type := .PROPERTY_EXISTS
  , shape := some "http://example.org/ProductShape"
  , target_label := "Product"
  , severity := .VIOLATION
  , message := "Product node missing required \x27startDate\x27 property"
  , property := some "startDate" }

/-! ## Claim C1 — cross-format parity

The spec's shared constraint fragment (an attribute constraint with an
optional datatype and an optional value set, and a relationship
constraint with cardinality bounds), written once per grammar by
canonical encoders, yields plans whose check-kind sequences — and hence
per-kind counts — coincide. -/

/-- A constraint of the fragment expressible in both grammars, written
from the spec's parity clause (the abstract "constraint set" the claim
quantifies over). -/
inductive SharedConstraint where
  | propC (predicate : String) (required : Bool) (datatype : Option String)
      (values : Option (List LpgValue))
  | relC (predicate : String) (targetIri : String) (minC : Int)
      (maxC : Option Int)

/-- Well-formedness of a shared constraint: a present datatype is a
nonempty IRI and a present value set is nonempty. -/
def SharedConstraint.wf : SharedConstraint → Bool
  | .propC _ _ dt vals =>
    (match dt with | some d => d != "" | none => true)
      && (match vals with | some l => !l.isEmpty | none => true)
  | .relC _ _ _ _ => true

/-- The ShExC (ShExJ) encoding of one shared constraint. -/
def shexcTC : SharedConstraint → TripleConstraint
  | .propC pred req dt vals =>
    { predicate := pred
    , valueExpr := some (.obj "NodeConstraint" "" dt
        (vals.map fun l => l.map fun v => ShexValueItem.plain v.pyStr))
    , min := some (if req then 1 else 0)
    , max := some 1 }
  | .relC pred target minC maxC =>
    { predicate := pred
    , valueExpr := some (.strRef target)
    , min := some minC
    , max := some (maxC.getD (-1)) }

/-- The SHACL (graph-view) encoding of one shared constraint. -/
def shaclPS : SharedConstraint → PropertyShape
  | .propC pred req dt vals =>
    { path := some (.uri pred)
    , minCount := some (if req then 1 else 0)
    , maxCount := some 1
    , datatype := dt
    , inList := vals }
  | .relC pred target minC maxC =>
    { path := some (.uri pred)
    , minCount := some minC
    , maxCount := maxC
    , class_ := some target }

/-- One ShExC document holding the whole constraint set under a single
shape. -/
def shexcEncode (cs : List SharedConstraint) (classIri : String) :
    ShexSchema :=
  { shapes :=
      [ { id := classIri
        , expression := some (.eachOf
            (cs.map fun c => .tripleConstraint (shexcTC c))) } ] }

/-- One SHACL document holding the whole constraint set under a single
node shape targeting `classIri`. -/
def shaclEncode (cs : List SharedConstraint) (classIri : String) :
    ShaclGraph :=
  { nodeShapes :=
      [ { iri := classIri
        , targetClasses := [classIri]
        , properties := cs.map shaclPS } ]
  , subClassEdges := [] }

theorem processExpressionList_eq_flatMap (l : List ShexExpression)
    (s lab : String) (m : Mapping) :
    processExpressionList l s lab m
      = l.flatMap fun e => processExpression e s lab m := by
  induction l with
  | nil => rfl
  | cons e rest ih => simp [processExpressionList, ih]

theorem shexcEncode_checks (cs : List SharedConstraint)
    (classIri src : String) (m : Mapping) :
    (parse_shexc_to_plan (shexcEncode cs classIri) (some m) src
        false).checks
      = cs.flatMap fun c =>
          processTripleConstraint (shexcTC c) classIri
            (m.label_for classIri) m := by
  unfold parse_shexc_to_plan shexcEncode
  simp [processExpression, processExpressionList_eq_flatMap,
    List.flatMap_map, Function.comp]

theorem shaclEncode_checks (cs : List SharedConstraint)
    (classIri src : String) (m : Mapping) :
    (parse_shacl_to_plan (shaclEncode cs classIri) (some m) src
        false).checks
      = cs.flatMap fun c =>
          processPropertyShape (shaclPS c) classIri (m.label_for classIri) m
            (classHierarchyLookup [] m) := by
  unfold parse_shacl_to_plan shaclEncode shaclChecksForTargetClass
  simp [NodeShape.resolvedTargets, logicalConstraints, List.flatMap_map,
    Function.comp]

/-- Per-constraint parity of generated check kinds. -/
theorem sharedConstraint_types_parity (c : SharedConstraint)
    (sid lab : String) (m : Mapping)
    (hier : String → Option (List String)) (hwf : c.wf = true) :
    (processTripleConstraint (shexcTC c) sid lab m).map
        (fun x => x.data.type)
      = (processPropertyShape (shaclPS c) sid lab m hier).map
          (fun x => x.data.type) := by
  cases c with
  | relC pred target minC maxC => rfl
  | propC pred req dt vals =>
    cases dt with
    | none =>
      cases vals with
      | none => cases req <;> rfl
      | some l =>
        have hl : l ≠ [] := by
          simp only [SharedConstraint.wf, Bool.and_eq_true] at hwf
          simpa using hwf.2
        cases req <;>
          simp [shexcTC, shaclPS, processTripleConstraint, isShapeReference,
            strOptTruthy, listOptTruthy, hl, processPropertyShape,
            isRelationshipConstraint, propertyChecks, applyAnnotations,
            shaclExistsChecks, shaclDatatypeChecks, shaclInChecks,
            shaclHasValueChecks, shaclPatternChecks, shaclStrlenChecks,
            shaclRangeChecks, shaclPairChecks, shaclPairCheckFor,
            shaclUniqueLangChecks, shaclQualifiedChecks]
    | some d =>
      have hd : ¬ d = "" := by
        simp only [SharedConstraint.wf, Bool.and_eq_true] at hwf
        simpa using hwf.1
      cases vals with
      | none =>
        cases req <;>
          simp [shexcTC, shaclPS, processTripleConstraint, isShapeReference,
            strOptTruthy, listOptTruthy, hd, processPropertyShape,
            isRelationshipConstraint, propertyChecks, applyAnnotations,
            shaclExistsChecks, shaclDatatypeChecks, shaclInChecks,
            shaclHasValueChecks, shaclPatternChecks, shaclStrlenChecks,
            shaclRangeChecks, shaclPairChecks, shaclPairCheckFor,
            shaclUniqueLangChecks, shaclQualifiedChecks]
      | some l =>
        have hdl : ¬ d = "" ∧ l ≠ [] := by
          simp only [SharedConstraint.wf, Bool.and_eq_true] at hwf
          exact ⟨by simpa using hwf.1, by simpa using hwf.2⟩
        cases req <;>
          simp [shexcTC, shaclPS, processTripleConstraint, isShapeReference,
            strOptTruthy, listOptTruthy, hdl.1, hdl.2, processPropertyShape,
            isRelationshipConstraint, propertyChecks, applyAnnotations,
            shaclExistsChecks, shaclDatatypeChecks, shaclInChecks,
            shaclHasValueChecks, shaclPatternChecks, shaclStrlenChecks,
            shaclRangeChecks, shaclPairChecks, shaclPairCheckFor,
            shaclUniqueLangChecks, shaclQualifiedChecks]

/-- C1: for every well-formed shared constraint set encoded once per
grammar with the same Mapping, the two plans' check-kind sequences are
equal, hence every check kind occurs the same number of times in
both. -/
theorem C1_cross_format_parity :
    ∀ (cs : List SharedConstraint) (classIri src1 src2 : String)
      (m : Mapping),
      (∀ c ∈ cs, c.wf = true) →
      ((parse_shexc_to_plan (shexcEncode cs classIri) (some m) src1
            false).checks.map (fun c => c.data.type)
        = (parse_shacl_to_plan (shaclEncode cs classIri) (some m) src2
            false).checks.map (fun c => c.data.type))
      ∧ ∀ (k : CheckType),
          (parse_shexc_to_plan (shexcEncode cs classIri) (some m) src1
              false).checks.countP (fun c => c.data.type == k)
            = (parse_shacl_to_plan (shaclEncode cs classIri) (some m) src2
                false).checks.countP (fun c => c.data.type == k) := by
  intro cs classIri src1 src2 m hwf
  have hmap : (parse_shexc_to_plan (shexcEncode cs classIri) (some m) src1
          false).checks.map (fun c => c.data.type)
      = (parse_shacl_to_plan (shaclEncode cs classIri) (some m) src2
          false).checks.map (fun c => c.data.type) := by
    rw [shexcEncode_checks, shaclEncode_checks]
    have hgen : ∀ (l : List SharedConstraint), (∀ c ∈ l, c.wf = true) →
        (l.flatMap fun c =>
            processTripleConstraint (shexcTC c) classIri
              (m.label_for classIri) m).map (fun c => c.data.type)
          = (l.flatMap fun c =>
              processPropertyShape (shaclPS c) classIri
                (m.label_for classIri) m
                (classHierarchyLookup [] m)).map (fun c => c.data.type) := by
      intro l hl
      induction l with
      | nil => rfl
      | cons c rest ih =>
        simp only [List.flatMap_cons, List.map_append]
        rw [sharedConstraint_types_parity c classIri (m.label_for classIri) m
            (classHierarchyLookup [] m) (hl c (by simp)),
          ih (fun x hx => hl x (by simp [hx]))]
    exact hgen cs hwf
  refine ⟨hmap, fun k => ?_⟩
  have h2 := congrArg (List.countP (fun t => t == k)) hmap
  simpa [List.countP_map, Function.comp] using h2

/-- A concrete shared constraint set for the parity witness: one
required string attribute with a value set and one relationship. -/
def c1Demo : List SharedConstraint :=
  [ .propC "http://example.org/name" true (some (XSD ++ "string"))
      (some [.str "a", .str "b"])
  , .propC "http://example.org/nickname" false none none
  , .relC "http://example.org/knows" "http://example.org/Person" 1 none ]

theorem C1_cross_format_parity_witness :
    (parse_shexc_to_plan (shexcEncode c1Demo "http://example.org/Person")
        (some {}) "<string>" false).checks.map (fun c => c.data.type)
      = (parse_shacl_to_plan (shaclEncode c1Demo "http://example.org/Person")
          (some {}) "<string>" false).checks.map (fun c => c.data.type) :=
  (C1_cross_format_parity c1Demo "http://example.org/Person" "<string>"
    "<string>" {} (by decide)).1

/-! ## Claim C5 — optionality law

An optional constraint emits no existence check and marks its value
checks `only_if_exists`, and a required constraint emits exactly one
existence check with `only_if_exists = false` companions — but
"exactly one type/value-kind check" is false: a constraint carrying
both a datatype and a value set yields two value-kind checks (and a
bare constraint yields zero). -/

/-- `true` exactly on existence-kind checks. -/
def isExistsCheck (c : Check) : Bool :=
  match c.data.type with
  | .PROPERTY_EXISTS => true
  | _ => false

/-- `true` exactly on the attribute value-kind checks (type, value-in,
pattern, string-length, range, pair). -/
def isValueKindCheck (c : Check) : Bool :=
  match c.data.type with
  | .PROPERTY_TYPE => true
  | .PROPERTY_VALUE_IN => true
  | .PROPERTY_PATTERN => true
  | .PROPERTY_STRING_LENGTH => true
  | .PROPERTY_RANGE => true
  | .PROPERTY_PAIR => true
  | _ => false

/-- Annotation attachment rewrites only annotation fields of the last
check, so the count of existence-kind checks is unchanged. -/
theorem countP_isExists_applyAnnotations (l : List Check) (p : String)
    (dv : Option LpgValue) (ov : Option Int) :
    (applyAnnotations l p dv ov).countP isExistsCheck
      = l.countP isExistsCheck := by
  unfold applyAnnotations
  by_cases h : (dv.isSome || ov.isSome) = true
  · rw [if_pos h]
    cases hlast : l.getLast? with
    | none => rfl
    | some last =>
      dsimp only
      by_cases hid : (last.data.property == some p) = true
      · rw [if_pos hid]
        have hl : l.dropLast ++ [last] = l := by
          have hx : last ∈ l.getLast? := Option.mem_def.mpr hlast
          obtain ⟨hne, heq⟩ := List.mem_getLast?_eq_getLast hx
          rw [heq]
          exact List.dropLast_append_getLast hne
        conv_rhs => rw [← hl]
        simp only [List.countP_append]
        rfl
      · rw [if_neg hid]
  · rw [if_neg h]

theorem countP_isExists_shaclExistsChecks (sIri label pn : String)
    (opt : Bool) (sev : Severity) :
    (shaclExistsChecks sIri label pn opt sev).countP isExistsCheck
      = if opt then 0 else 1 := by
  cases opt <;> rfl

theorem countP_isExists_shaclDatatypeChecks (dt : Option String)
    (sIri label pn : String) (opt : Bool) (sev : Severity) :
    (shaclDatatypeChecks dt sIri label pn opt sev).countP isExistsCheck
      = 0 := by
  cases dt <;> rfl

theorem countP_isExists_shaclInChecks (il : Option (List LpgValue))
    (sIri label pn : String) (opt : Bool) (sev : Severity) :
    (shaclInChecks il sIri label pn opt sev).countP isExistsCheck = 0 := by
  cases il <;> rfl

theorem countP_isExists_shaclHasValueChecks (hv : Option LpgValue)
    (sIri label pn : String) (opt : Bool) (sev : Severity) :
    (shaclHasValueChecks hv sIri label pn opt sev).countP isExistsCheck
      = 0 := by
  cases hv <;> rfl

theorem countP_isExists_shaclPatternChecks (pat flags : Option String)
    (sIri label pn : String) (opt : Bool) (sev : Severity) :
    (shaclPatternChecks pat flags sIri label pn opt sev).countP isExistsCheck
      = 0 := by
  cases pat <;> rfl

theorem countP_isExists_shaclStrlenChecks (minL maxL : Option Int)
    (sIri label pn : String) (opt : Bool) (sev : Severity) :
    (shaclStrlenChecks minL maxL sIri label pn opt sev).countP isExistsCheck
      = 0 := by
  unfold shaclStrlenChecks
  by_cases hb : (minL.isSome || maxL.isSome) = true
  · rw [if_pos hb]
    rfl
  · rw [if_neg hb]
    rfl

theorem countP_isExists_shaclRangeChecks (minI maxI minE maxE : Option Rat)
    (sIri label pn : String) (opt : Bool) (sev : Severity) :
    (shaclRangeChecks minI maxI minE maxE sIri label pn opt
        sev).countP isExistsCheck = 0 := by
  unfold shaclRangeChecks
  by_cases hb : (minI.isSome || maxI.isSome || minE.isSome || maxE.isSome)
      = true
  · rw [if_pos hb]
    rfl
  · rw [if_neg hb]
    rfl

theorem countP_isExists_shaclPairCheckFor (compVal : Option String)
    (ct : CompType) (sIri label pn : String) (opt : Bool) (sev : Severity)
    (m : Mapping) :
    (shaclPairCheckFor compVal ct sIri label pn opt sev m).countP
        isExistsCheck = 0 := by
  cases compVal <;> rfl

theorem countP_isExists_shaclPairChecks (eqV disV ltV lteV : Option String)
    (sIri label pn : String) (opt : Bool) (sev : Severity) (m : Mapping) :
    (shaclPairChecks eqV disV ltV lteV sIri label pn opt sev m).countP
        isExistsCheck = 0 := by
  unfold shaclPairChecks
  simp only [List.countP_append, countP_isExists_shaclPairCheckFor]

theorem countP_isExists_shaclUniqueLangChecks (ul : Option Bool)
    (sIri label pn : String) :
    (shaclUniqueLangChecks ul sIri label pn).countP isExistsCheck = 0 := by
  cases ul with
  | none => rfl
  | some b => cases b <;> rfl

theorem countP_isExists_shaclQualifiedChecks (qvs : Option QvsView)
    (qMin qMax : Option Int) (sIri label pn : String) (sev : Severity)
    (m : Mapping) :
    (shaclQualifiedChecks qvs qMin qMax sIri label pn sev m).countP
        isExistsCheck = 0 := by
  unfold shaclQualifiedChecks
  cases qvs with
  | none => rfl
  | some q =>
    dsimp only
    cases hpf : parseQualifiedFilter q sIri label pn m with
    | none => rfl
    | some qf => rfl

/-- The concrete input refuting C5's "exactly one value check": an
optional property constraint with both a datatype and a value set. -/
def c5Tc : TripleConstraint :=
  { predicate := "http://example.org/status"
  , valueExpr := some (.obj "NodeConstraint" ""
      (some (XSD ++ "string"))
      (some [.plain "active", .plain "inactive"]))
  , min := some 0
  , max := none }

/-- C5 counterexample: an optional attribute constraint carrying both a
datatype and a value set yields two value-kind checks (a type check and
a value-in check), not exactly one. -/
theorem C5_exactly_one_counterexample :
    (processTripleConstraint c5Tc "http://example.org/ProductShape"
        "Product" {}).map (fun c => (c.data.type, c.data.only_if_exists))
      = [(CheckType.PROPERTY_TYPE, true), (CheckType.PROPERTY_VALUE_IN, true)]
    ∧ (2 : Nat) ≠ 1 :=
  ⟨rfl, by decide⟩

/-- C5 amended: for an attribute (non-relationship) constraint, both
parsers emit zero existence checks when the minimum occurrence is 0 and
exactly one when it is nonzero, and every value-kind companion check
carries `only_if_exists = (min = 0)` — but the number of value-kind
checks is the number of constraining facets present (0, 1, 2, … per
facet), not always exactly one. -/
theorem C5_optionality_law :
    (∀ (tc : TripleConstraint) (shapeId label : String) (m : Mapping),
      isShapeReference tc.valueExpr = false →
      ((processTripleConstraint tc shapeId label m).countP isExistsCheck
          = if tc.min.getD 1 == 0 then 0 else 1)
      ∧ (∀ c ∈ processTripleConstraint tc shapeId label m,
          c.data.type ≠ CheckType.PROPERTY_EXISTS →
          c.data.only_if_exists = (tc.min.getD 1 == 0)))
    ∧ (∀ (ps : PropertyShape) (shapeIri label pred : String) (minC : Int)
        (sev : Severity) (m : Mapping),
      ((propertyChecks ps shapeIri label pred minC sev m).countP isExistsCheck
          = if minC == 0 then 0 else 1)
      ∧ (∀ c ∈ propertyChecks ps shapeIri label pred minC sev m,
          isValueKindCheck c = true →
          c.data.only_if_exists = (minC == 0))) := by
  constructor
  · intro tc shapeId label m hrel
    have hr : ¬ isShapeReference tc.valueExpr = true := by simp [hrel]
    constructor
    · unfold processTripleConstraint
      dsimp only
      rw [if_neg hr, List.countP_append]
      cases hve : tc.valueExpr with
      | none =>
        by_cases hopt : (tc.min.getD 1 == 0) = true <;>
          simp [hopt, isExistsCheck, List.countP_cons]
      | some ve =>
        cases ve with
        | strRef s =>
          rw [hve] at hr
          exact absurd rfl hr
        | obj t oid dt vals =>
          by_cases hopt : (tc.min.getD 1 == 0) = true <;>
            by_cases hdt : strOptTruthy dt = true <;>
            by_cases hv : listOptTruthy vals = true <;>
            simp [hopt, hdt, hv, isExistsCheck, List.countP_cons]
    · intro c hc hne
      unfold processTripleConstraint at hc
      dsimp only at hc
      rw [if_neg hr] at hc
      rcases List.mem_append.mp hc with hex | hval
      · by_cases hopt : (tc.min.getD 1 == 0) = true
        · simp [hopt] at hex
        · simp [hopt] at hex
          subst hex
          exact absurd rfl hne
      · cases hve : tc.valueExpr with
        | none => rw [hve] at hval; simp at hval
        | some ve =>
          rw [hve] at hval
          cases ve with
          | strRef s => simp at hval
          | obj t oid dt vals =>
            dsimp only at hval
            rcases List.mem_append.mp hval with hty | hvs
            · by_cases hdt : strOptTruthy dt = true
              · simp [hdt] at hty
                subst hty
                rfl
              · simp [hdt] at hty
            · by_cases hv : listOptTruthy vals = true
              · simp [hv] at hvs
                subst hvs
                rfl
              · simp [hv] at hvs
  · intro ps shapeIri label pred minC sev m
    constructor
    · unfold propertyChecks
      dsimp only
      simp only [List.countP_append, countP_isExists_applyAnnotations,
        countP_isExists_shaclExistsChecks, countP_isExists_shaclDatatypeChecks,
        countP_isExists_shaclInChecks, countP_isExists_shaclHasValueChecks,
        countP_isExists_shaclPatternChecks, countP_isExists_shaclStrlenChecks,
        countP_isExists_shaclRangeChecks, countP_isExists_shaclPairChecks,
        countP_isExists_shaclUniqueLangChecks,
        countP_isExists_shaclQualifiedChecks, Nat.add_zero, Nat.zero_add]
    · intro c hc hvk
      unfold propertyChecks at hc
      dsimp only at hc
      rcases List.mem_append.mp hc with hmain | hqual
      · obtain ⟨cx, hcx, -, htype, hoie⟩ := mem_applyAnnotations_id hmain
        rw [hoie]
        have hvk2 : isValueKindCheck cx = true := by
          unfold isValueKindCheck at hvk ⊢
          rw [← htype]
          exact hvk
        rcases List.mem_append.mp hcx with h8 | hU
        · rcases List.mem_append.mp h8 with h7 | hPair
          · rcases List.mem_append.mp h7 with h6 | hRange
            · rcases List.mem_append.mp h6 with h5 | hLen
              · rcases List.mem_append.mp h5 with h4 | hPat
                · rcases List.mem_append.mp h4 with h3 | hHV
                  · rcases List.mem_append.mp h3 with h2 | hIn
                    · rcases List.mem_append.mp h2 with hEx | hTy
                      · obtain ⟨-, ht, -, -⟩ := mem_shaclExistsChecks hEx
                        unfold isValueKindCheck at hvk2
                        rw [ht] at hvk2
                        simp at hvk2
                      · exact (mem_shaclDatatypeChecks hTy).2.1
                    · exact (mem_shaclInChecks hIn).2.1
                  · exact (mem_shaclHasValueChecks hHV).2.1
                · exact (mem_shaclPatternChecks hPat).2.1
              · exact (mem_shaclStrlenChecks hLen).2.1
            · exact (mem_shaclRangeChecks hRange).2.1
          · exact (mem_shaclPairChecks hPair).2.1
        · obtain ⟨ht, -, -⟩ := mem_shaclUniqueLangChecks hU
          unfold isValueKindCheck at hvk2
          rw [ht] at hvk2
          simp at hvk2
      · obtain ⟨ht, -, -⟩ := mem_shaclQualifiedChecks hqual
        unfold isValueKindCheck at hvk
        rw [ht] at hvk
        simp at hvk

theorem C5_optionality_law_witness :
    ((processTripleConstraint c5Tc "http://example.org/ProductShape"
          "Product" {}).countP isExistsCheck
        = if c5Tc.min.getD 1 == 0 then 0 else 1)
    ∧ isShapeReference c5Tc.valueExpr = false :=
  ⟨((C5_optionality_law).1 c5Tc "http://example.org/ProductShape" "Product"
      {} rfl).1, rfl⟩

theorem C7_identifier_format_witness :
    c7ExistsCheck.data.id
        = pyLower "Product" ++ "-"
            ++ pyLower (Mapping.relationship_for {} c7Tc.predicate)
            ++ "-cardinality"
      ∨ c7ExistsCheck.data.id
          = pyLower "Product" ++ "-"
              ++ Mapping.property_for {} c7Tc.predicate ++ "-exists"
      ∨ c7ExistsCheck.data.id
          = pyLower "Product" ++ "-"
              ++ Mapping.property_for {} c7Tc.predicate ++ "-type"
      ∨ c7ExistsCheck.data.id
          = pyLower "Product" ++ "-"
              ++ Mapping.property_for {} c7Tc.predicate ++ "-values" :=
  (C7_identifier_format).1 c7Tc "http://example.org/ProductShape" "Product" {}
    c7ExistsCheck
    (show c7ExistsCheck ∈ [c7ExistsCheck] from List.mem_singleton.mpr rfl)

end Graphlint
